import Mathlib

/-!
# Verification of the EMS platform ML service core

Shallow embedding of the analytics core of the `ems-platform` repository
(`apps/ml-service`), together with theorems settling the specification
claims about it.

Modelling conventions:
* Python floats are modelled as exact rationals (`ℚ`); the claims under
  study are about control flow and algebraic shape, not float rounding.
* `sklearn`'s `IsolationForest` is an external library: its fitted state is
  modelled as an opaque record of score/label functions, and `fit` is an
  abstract function parameter.  All theorems quantify over it.
* Python functions that signal failure by raising map to `Except`;
  functions that signal failure by returning a result dict keep a plain
  result type mirroring the dict.
* `np.std` is irrational in general, so wherever only the comparison with
  a threshold or with `0` matters, the embedding uses the algebraically
  equivalent comparison of squares (documented at each site).
-/

/-- The specification's error taxonomy (§7 of the spec).  Python signals
these in various concrete ways (raised `ValueError`s, failure dicts); the
embedding maps each concrete signal to the corresponding member. -/
inductive MLError where
  | insufficientData
  | modelNotTrained
  | invalidMetricSet
  | unknownMethod (method : String)
  deriving DecidableEq, Repr

/-! ## Numpy helpers

Exact-rational transcriptions of the numpy primitives the service uses. -/

/-- `np.mean`: arithmetic mean.  (numpy errors on an empty array; all call
sites below guard the length, so the `0`-denominator case is unreachable
there.) -/
def npMean (l : List ℚ) : ℚ := l.sum / l.length

/-- `np.var` (population variance).  `np.std l = Real.sqrt (npVar l)`, so
`np.std l = 0 ↔ npVar l = 0`; the code below only ever compares `std` with
`0` or uses it inside a comparison, which we express through `npVar`. -/
def npVar (l : List ℚ) : ℚ := (l.map (fun x => (x - npMean l) ^ 2)).sum / l.length

/-- `np.median`: sort, take the middle element (odd length) or the mean of
the two middle elements (even length). -/
def npMedian (l : List ℚ) : ℚ :=
  let s := List.insertionSort (· ≤ ·) l
  let n := l.length
  if n % 2 = 1 then s.getD (n / 2) 0
  else (s.getD (n / 2 - 1) 0 + s.getD (n / 2) 0) / 2

/-- `np.percentile` with the default linear-interpolation method: for a
sorted array `s` of length `n`, the value at fractional position
`q/100 * (n-1)`. -/
def npPercentile (l : List ℚ) (q : ℚ) : ℚ :=
  let s := List.insertionSort (· ≤ ·) l
  let n := s.length
  let pos := q / 100 * ((n : ℚ) - 1)
  let i := (⌊pos⌋).toNat
  let frac := pos - ⌊pos⌋
  let lo := s.getD i 0
  let hi := s.getD (i + 1) lo
  lo + frac * (hi - lo)

/-! ## `app/services/data_processor.py` -/

namespace DataProcessor

/-- `DataProcessor.detect_outliers_iqr(data, multiplier)`: flag each point
outside `[Q1 - multiplier*IQR, Q3 + multiplier*IQR]`. -/
def detect_outliers_iqr (data : List ℚ) (multiplier : ℚ) : List Bool :=
  let q1 := npPercentile data 25
  let q3 := npPercentile data 75
  let iqr := q3 - q1
  let lower_bound := q1 - multiplier * iqr
  let upper_bound := q3 + multiplier * iqr
  data.map (fun x => decide (x < lower_bound) || decide (upper_bound < x))

/-- The Python signature default `multiplier=1.5`. -/
def detect_outliers_iqr_default (data : List ℚ) : List Bool :=
  detect_outliers_iqr data (3 / 2)

end DataProcessor

/-! ## `app/config.py` -/

/-- `Settings.ANOMALY_THRESHOLD` (default 0.7). -/
def ANOMALY_THRESHOLD : ℚ := 7 / 10

/-- `Settings.ANOMALY_CONTAMINATION` (default 0.1). -/
def ANOMALY_CONTAMINATION : ℚ := 1 / 10

/-! ## `app/services/anomaly_detection.py` (`AnomalyDetector`)

The detector's `model`+`scaler` pair is sklearn state; it enters `predict`
only through `score_samples(transform(data))`, one raw score per sample,
which we model as a per-sample score function stored in the state. -/

namespace AppService

/-- State of `app.services.anomaly_detection.AnomalyDetector`.  `scoreFn`
models `self.model.score_samples ∘ self.scaler.transform` applied to a
single sample (sklearn produces one raw score per input row). -/
structure AnomalyDetector where
  is_trained : Bool
  threshold : ℚ
  scoreFn : List ℚ → ℚ

/-- Minimum of a nonempty list, `np.min` style (`0` for the empty list,
which numpy rejects; `predict` only reaches it with nonempty input). -/
def listMin : List ℚ → ℚ
  | [] => 0
  | x :: xs => xs.foldl min x

/-- Maximum of a nonempty list, `np.max` style. -/
def listMax : List ℚ → ℚ
  | [] => 0
  | x :: xs => xs.foldl max x

/-- `AnomalyDetector.predict(data)`: raises (`.error .modelNotTrained`,
for the `ValueError("Model is not trained...")`) when untrained; otherwise
min-max normalizes the batch's raw scores, inverted so that the lowest raw
score maps to `1`, with the all-equal batch mapping to all zeros, and
flags a sample anomalous when its normalized score strictly exceeds the
threshold. -/
def AnomalyDetector.predict (d : AnomalyDetector) (data : List (List ℚ)) :
    Except MLError (List ℚ × List Bool) :=
  if d.is_trained = false then .error .modelNotTrained
  else
    let raw_scores := data.map d.scoreFn
    let min_score := listMin raw_scores
    let max_score := listMax raw_scores
    let anomaly_scores :=
      if max_score - min_score = 0 then raw_scores.map (fun _ => (0 : ℚ))
      else raw_scores.map (fun r => 1 - (r - min_score) / (max_score - min_score))
    .ok (anomaly_scores, anomaly_scores.map (fun s => decide (d.threshold < s)))

/-- `AnomalyDetector.detect_statistical_anomalies(data, method, threshold)`.
The z-score branch compares `|x-mean|/std > threshold`; since
`std = sqrt (npVar data)` is irrational we use the equivalent
`threshold < 0 ∨ (x-mean)² > threshold² * npVar data` (both sides of the
original comparison are nonnegative when `threshold ≥ 0`, and the
comparison is vacuously true when `threshold < 0`). -/
def AnomalyDetector.detect_statistical_anomalies (data : List ℚ)
    (method : String) (threshold : ℚ) : Except MLError (List Bool) :=
  if data.length < 3 then .ok (List.replicate data.length false)
  else if method = "zscore" then
    let mean := npMean data
    let var := npVar data
    if var = 0 then .ok (List.replicate data.length false)
    else .ok (data.map (fun x =>
      decide (threshold < 0) || decide (threshold ^ 2 * var < (x - mean) ^ 2)))
  else if method = "iqr" then
    .ok (DataProcessor.detect_outliers_iqr data threshold)
  else if method = "mad" then
    let median := npMedian data
    let mad := npMedian (data.map (fun x => |x - median|))
    if mad = 0 then .ok (List.replicate data.length false)
    else .ok (data.map (fun x =>
      decide (threshold < |(6745 / 10000 : ℚ) * (x - median) / mad|)))
  else .error (.unknownMethod method)

end AppService

/-! ## The sklearn `IsolationForest` abstraction

The forest itself is external library code.  A fitted forest enters the
repository's code only through `score_samples` (one rational score per
sample) and `predict` (label `-1` = anomaly, `1` = normal), so a fitted
model is an opaque record of those two functions; `fit` is an abstract
parameter of the operations that train (deterministic in the source
because `random_state=42` is fixed). -/

/-- Opaque fitted state of a univariate `IsolationForest` (samples are
single values reshaped to one column). -/
structure FittedModel where
  score : ℚ → ℚ
  label : ℚ → Int

/-- Opaque fitted state of a multivariate `IsolationForest` (samples are
rows of the joint feature matrix). -/
structure MultiFittedModel where
  score : List ℚ → ℚ
  label : List ℚ → Int

/-! ## `src/models/anomaly_detector.py` (`AnomalyDetector`) -/

namespace SrcModels

/-- Per-metric training statistics as produced by `get_statistics`.
`np.std` is irrational in general, so the field `var` stores its square
(the population variance); no claim depends on the numeric std value. -/
structure Statistics where
  mean : ℚ
  var : ℚ
  min : ℚ
  max : ℚ
  median : ℚ
  deriving DecidableEq, Repr

/-- `get_statistics(data)` (identical in `anomaly_detector.py` and
`persistent_anomaly_detector.py`): zeros for empty input, else
mean/std/min/max/median of the data (std represented by its square). -/
def get_statistics (data : List ℚ) : Statistics :=
  if data.isEmpty then ⟨0, 0, 0, 0, 0⟩
  else ⟨npMean data, npVar data, AppService.listMin data, AppService.listMax data,
        npMedian data⟩

/-- State of `src.models.anomaly_detector.AnomalyDetector`. -/
structure AnomalyDetector where
  contamination : ℚ
  model : Option FittedModel
  is_trained : Bool
  threshold : ℚ

/-- Fresh `AnomalyDetector(contamination)`: untrained, with an unfitted
model object and `threshold = -0.5`. -/
def AnomalyDetector.init (contamination : ℚ) : AnomalyDetector :=
  ⟨contamination, none, false, -(1 / 2)⟩

/-- `AnomalyDetector.train(data)`: below 10 points it only logs a warning
and returns, leaving the state untouched; otherwise it fits the forest and
sets `is_trained`. -/
def AnomalyDetector.train (fit : ℚ → List ℚ → FittedModel)
    (d : AnomalyDetector) (data : List ℚ) : AnomalyDetector :=
  if data.length < 10 then d
  else { d with model := some (fit d.contamination data), is_trained := true }

/-- Result dict of the per-value `detect` calls. -/
structure DetectResult where
  is_anomaly : Bool
  score : ℚ
  confidence : ℚ
  reason : String
  deriving DecidableEq, Repr

/-- `AnomalyDetector.detect(value)`: when untrained, returns the default
dict with reason `"Model not trained"` (it does not raise); when trained,
scores the value and labels it anomalous iff the forest predicts `-1`.
An unfitted model object despite `is_trained` would raise an
`AttributeError` in Python; that state is unreachable from `init`/`train`
and is mapped to the same default dict. -/
def AnomalyDetector.detect (d : AnomalyDetector) (value : ℚ) : DetectResult :=
  if d.is_trained = false then ⟨false, 0, 0, "Model not trained"⟩
  else
    match d.model with
    | none => ⟨false, 0, 0, "Model not trained"⟩
    | some m =>
      let score := m.score value
      let is_anomaly := m.label value = -1
      let confidence := min (max (|score| / 2) 0) 1
      ⟨decide is_anomaly, score, confidence,
       if is_anomaly then "Value deviates from normal pattern" else "Within normal range"⟩

/-! ## `src/models/persistent_anomaly_detector.py` -/

/-- Result of `PersistentAnomalyDetector.train` — the Python function
signals failure by returning `{"success": False, "error": ...}` rather
than raising; the spec's taxonomy classifies the
`"Need at least 10 data points"` failure as `InsufficientDataError`. -/
inductive TrainResult where
  | failure (error : String)
  | success (data_points : Nat) (statistics : Statistics) (model_saved : Bool)
  deriving DecidableEq, Repr

/-- State of `PersistentAnomalyDetector`. -/
structure PersistentAnomalyDetector where
  model_name : String
  contamination : ℚ
  model : Option FittedModel
  is_trained : Bool
  threshold : ℚ
  training_data_stats : Option Statistics

/-- A fresh `PersistentAnomalyDetector(name, contamination)` when the
model store holds nothing under `name` (the load silently leaves the
detector untrained). -/
def PersistentAnomalyDetector.init (name : String) (contamination : ℚ) :
    PersistentAnomalyDetector :=
  ⟨name, contamination, none, false, -(1 / 2), none⟩

/-- `PersistentAnomalyDetector.train(data, auto_save)`: fewer than 10
points returns the failure dict and leaves the state untouched; otherwise
fits the forest, sets `is_trained`, records the statistics and returns the
success dict (with `model_saved = auto_save`). -/
def PersistentAnomalyDetector.train (fit : ℚ → List ℚ → FittedModel)
    (d : PersistentAnomalyDetector) (data : List ℚ) (auto_save : Bool) :
    PersistentAnomalyDetector × TrainResult :=
  if data.length < 10 then (d, .failure "Need at least 10 data points")
  else
    let stats := get_statistics data
    ({ d with model := some (fit d.contamination data), is_trained := true,
              training_data_stats := some stats },
     .success data.length stats auto_save)

/-- `PersistentAnomalyDetector.detect(value)`: identical to the plain
detector's `detect`, including the untrained default dict. -/
def PersistentAnomalyDetector.detect (d : PersistentAnomalyDetector) (value : ℚ) :
    DetectResult :=
  if d.is_trained = false then ⟨false, 0, 0, "Model not trained"⟩
  else
    match d.model with
    | none => ⟨false, 0, 0, "Model not trained"⟩
    | some m =>
      let score := m.score value
      let is_anomaly := m.label value = -1
      let confidence := min (max (|score| / 2) 0) 1
      ⟨decide is_anomaly, score, confidence,
       if is_anomaly then "Value deviates from normal pattern" else "Within normal range"⟩

/-! ## `src/models/multi_metric_detector.py` -/

/-- State of `MultiMetricDetector`.  A Python dict preserves insertion
order, so `metrics_data` arguments are association lists. -/
structure MultiMetricDetector where
  contamination : ℚ
  model : Option MultiFittedModel
  is_trained : Bool
  metric_names : List String
  training_stats : List (String × Statistics)

/-- Fresh `MultiMetricDetector(contamination)`. -/
def MultiMetricDetector.init (contamination : ℚ) : MultiMetricDetector :=
  ⟨contamination, none, false, [], []⟩

/-- Result of `MultiMetricDetector.train` — again a success/failure dict,
never a raise.  The spec taxonomy classifies
`"All metrics must have same number of data points"` (and the empty-input
`"No metrics data provided"`) as `InvalidMetricSetError` and
`"Need at least 10 data points per metric"` as `InsufficientDataError`. -/
inductive MultiTrainResult where
  | failure (error : String)
  | success (metrics : List String) (data_points : Nat)
      (statistics : List (String × Statistics))
  deriving DecidableEq, Repr

/-- `np.column_stack` of the metric value lists: row `i` holds the `i`-th
value of every metric, in key order. -/
def dataMatrix (metrics_data : List (String × List ℚ)) (n : Nat) : List (List ℚ) :=
  (List.range n).map (fun i => metrics_data.map (fun p => p.2.getD i 0))

/-- `MultiMetricDetector.train(metrics_data)`: rejects an empty dict, then
unequal metric lengths (`len(set(lengths)) > 1`), then a common length
below 10; otherwise fits one joint forest and records per-metric
statistics.  There is no check that at least two metrics are present. -/
def MultiMetricDetector.train (fit : ℚ → List (List ℚ) → MultiFittedModel)
    (d : MultiMetricDetector) (metrics_data : List (String × List ℚ)) :
    MultiMetricDetector × MultiTrainResult :=
  match metrics_data with
  | [] => (d, .failure "No metrics data provided")
  | (n₀, v₀) :: rest =>
    let md := (n₀, v₀) :: rest
    if 1 < (md.map (fun p => p.2.length)).dedup.length then
      (d, .failure "All metrics must have same number of data points")
    else if v₀.length < 10 then
      (d, .failure "Need at least 10 data points per metric")
    else
      let names := md.map (fun p => p.1)
      let stats := md.map (fun p => (p.1, get_statistics p.2))
      ({ d with model := some (fit d.contamination (dataMatrix md v₀.length)),
                is_trained := true, metric_names := names, training_stats := stats },
       .success names v₀.length stats)

/-! ## `src/models/root_cause_analyzer.py` -/

/-- The slice of an event record that `calculate_business_impact` reads. -/
structure Event where
  severity : String
  deriving DecidableEq, Repr

/-- `severity_scores.get(severity, 10)`. -/
def severityScore (severity : String) : ℚ :=
  if severity = "critical" then 50
  else if severity = "warning" then 30
  else if severity = "info" then 10
  else 10

/-- `tier_multipliers.get(asset_tier, 1.0)`. -/
def tierMultiplier (asset_tier : Int) : ℚ :=
  if asset_tier = 1 then 2
  else if asset_tier = 2 then 3 / 2
  else if asset_tier = 3 then 1
  else 1

/-- Result dict of `calculate_business_impact`.  `business_impact_score`
and `affected_users` go through Python's `int()`, which truncates toward
zero — equal to `Int.floor` here because both operands are nonnegative. -/
structure BusinessImpact where
  business_impact_score : Int
  affected_users : Int
  revenue_at_risk : ℚ
  impact_level : String
  deriving DecidableEq, Repr

/-- `RootCauseAnalyzer.calculate_business_impact(event, asset_tier,
related_events_count)`. -/
def calculate_business_impact (event : Event) (asset_tier : Int)
    (related_events_count : Nat) : BusinessImpact :=
  let base_score := severityScore event.severity
  let tier_multiplier := tierMultiplier asset_tier
  let correlation_multiplier : ℚ := 1 + related_events_count * (1 / 10)
  let impact_score := min (base_score * tier_multiplier * correlation_multiplier) 100
  let affected_users := ⌊impact_score * 10⌋
  let revenue_at_risk : ℚ := affected_users * 100
  { business_impact_score := ⌊impact_score⌋
    affected_users := affected_users
    revenue_at_risk := revenue_at_risk
    impact_level :=
      if 70 < impact_score then "high"
      else if 40 < impact_score then "medium"
      else "low" }

end SrcModels

/-! ## `src/models/alert_correlator.py` -/

/-- First-occurrence deduplication: the key order of a Python dict built
by insertion (`defaultdict` iteration order). -/
def insertionDedup [DecidableEq α] (l : List α) : List α :=
  l.foldl (fun acc x => if x ∈ acc then acc else acc ++ [x]) []

namespace AlertCorrelator

/-- An alert record as the correlator reads it.  The Python dicts nest
`fingerprint`, `assetId` and `severity` under an `event` sub-dict; they are
flattened here.  `createdAt` is modelled as a rational timestamp (minutes):
the source sorts by the ISO-8601 `createdAt` string and subtracts parsed
datetimes, both order-isomorphic to the numeric time for well-formed
records. -/
structure Alert where
  id : Nat
  fingerprint : Option String
  assetId : Option Nat
  rootCauseAssetId : Option Nat
  createdAt : ℚ
  severity : String
  businessImpactScore : ℚ
  deriving DecidableEq, Repr

/-- Python truthiness of an optional integer (`None` and `0` are falsy). -/
def truthyNat : Option Nat → Bool
  | none => false
  | some n => decide (n ≠ 0)

/-- Python truthiness of an optional string (`None` and `""` are falsy). -/
def truthyStr : Option String → Bool
  | none => false
  | some s => decide (s ≠ "")

/-- The fingerprint an alert is grouped under (`if fingerprint:`). -/
def fpKey (a : Alert) : Option String :=
  if truthyStr a.fingerprint then a.fingerprint else none

/-- The asset an alert is grouped under:
`alert.get('rootCauseAssetId') or event.get('assetId')`, then
`if asset_id:`. -/
def assetKey (a : Alert) : Option Nat :=
  let asset_id := if truthyNat a.rootCauseAssetId then a.rootCauseAssetId else a.assetId
  if truthyNat asset_id then asset_id else none

/-- Sort order of the time-cluster pass (`sorted(alerts, key=createdAt)`;
Python's sort is stable, as is `insertionSort`). -/
def byTime (a b : Alert) : Prop := a.createdAt ≤ b.createdAt

instance : DecidableRel byTime := fun a b =>
  inferInstanceAs (Decidable (a.createdAt ≤ b.createdAt))

instance : IsTotal Alert byTime := ⟨fun a b => le_total a.createdAt b.createdAt⟩

instance : IsTrans Alert byTime := ⟨fun _ _ _ h₁ h₂ => le_trans h₁ h₂⟩

/-- One step of the time-cluster sweep: append the alert to the current
cluster when its gap to the cluster's last alert is within the window,
else emit the cluster (if it has more than one member) and start anew. -/
def sweepStep (w : ℚ) (acc : List (List Alert) × List Alert) (alert : Alert) :
    List (List Alert) × List Alert :=
  match acc with
  | (done, []) => (done, [alert])
  | (done, c :: cs) =>
    if alert.createdAt - ((c :: cs).getLast (by simp)).createdAt ≤ w then
      (done, (c :: cs) ++ [alert])
    else if 1 < (c :: cs).length then (done ++ [c :: cs], [alert])
    else (done, [alert])

/-- The full time-cluster sweep over the time-sorted alerts, including the
final flush of a multi-member current cluster. -/
def clusterSweep (w : ℚ) (sorted_alerts : List Alert) : List (List Alert) :=
  let fin := sorted_alerts.foldl (sweepStep w) ([], [])
  if 1 < fin.2.length then fin.1 ++ [fin.2] else fin.1

/-- Group keys: the fingerprint string, the asset id, or the synthesized
`"cluster_<i>"` index (tagged by provenance, which coincides with the
group's `type`). -/
inductive GroupKey where
  | fp (s : String)
  | asset (n : Nat)
  | cluster (i : Nat)
  deriving DecidableEq, Repr

/-- A correlation group dict. -/
structure CorrelationGroup where
  type : String
  key : GroupKey
  alert_count : Nat
  alert_ids : List Nat
  correlation_score : ℚ
  reason : String
  deriving DecidableEq, Repr

/-- The result dict of `find_correlated_alerts`.  The early empty-input
return omits the three count keys; they are modelled as `0` there. -/
structure CorrelationResult where
  total_alerts : Nat
  correlation_groups : List CorrelationGroup
  alert_storm_detected : Bool
  unique_fingerprints : Nat
  unique_assets : Nat
  time_clusters : Nat
  deriving DecidableEq, Repr

/-- The members of the fingerprint group keyed `k` (appended in input
order by the grouping loop, hence a `filter`). -/
def fpMembers (alerts : List Alert) (k : String) : List Alert :=
  alerts.filter (fun a => fpKey a = some k)

/-- The members of the asset group keyed `k`. -/
def assetMembers (alerts : List Alert) (k : Nat) : List Alert :=
  alerts.filter (fun a => assetKey a = some k)

/-- The distinct fingerprints present, in first-occurrence order
(`defaultdict` key order). -/
def fpKeys (alerts : List Alert) : List String :=
  insertionDedup (alerts.filterMap fpKey)

/-- The distinct asset keys present, in first-occurrence order. -/
def assetKeys (alerts : List Alert) : List Nat :=
  insertionDedup (alerts.filterMap assetKey)

/-- The fingerprint-pass groups: one group per fingerprint with more than
one member, score 0.9. -/
def fingerprintGroups (alerts : List Alert) : List CorrelationGroup :=
  ((fpKeys alerts).filter (fun k => 1 < (fpMembers alerts k).length)).map
    (fun k =>
      { type := "fingerprint", key := GroupKey.fp k
        alert_count := (fpMembers alerts k).length
        alert_ids := (fpMembers alerts k).map Alert.id
        correlation_score := 9 / 10
        reason := "Same event fingerprint - likely same root cause" })

/-- The asset-pass groups: one group per asset key with more than one
member, score 0.7. -/
def assetGroups (alerts : List Alert) : List CorrelationGroup :=
  ((assetKeys alerts).filter (fun k => 1 < (assetMembers alerts k).length)).map
    (fun k =>
      { type := "asset", key := GroupKey.asset k
        alert_count := (assetMembers alerts k).length
        alert_ids := (assetMembers alerts k).map Alert.id
        correlation_score := 7 / 10
        reason := "Same asset affected - related infrastructure issue" })

/-- The multi-member time clusters of the input. -/
def timeClusters (alerts : List Alert) (w : ℚ) : List (List Alert) :=
  clusterSweep w (List.insertionSort byTime alerts)

/-- The time-cluster groups, score 0.6; `key = "cluster_<i>"` where `i`
continues the numbering after the `nBefore` groups already emitted. -/
def clusterGroups (alerts : List Alert) (w : ℚ) (nBefore : Nat) :
    List CorrelationGroup :=
  (timeClusters alerts w).enum.map
    (fun p =>
      { type := "time_cluster", key := GroupKey.cluster (nBefore + p.1)
        alert_count := p.2.length, alert_ids := p.2.map Alert.id
        correlation_score := 6 / 10
        reason := "Alerts within " ++ toString w ++
          " minutes - possible cascading failure" })

/-- `AlertCorrelator.find_correlated_alerts(alerts, time_window_minutes)`:
three passes (fingerprint, asset, time cluster) over the same input;
fingerprint/asset groups are emitted per key in first-occurrence order
when they have more than one member; time clusters are swept over the
time-sorted alerts; cluster keys continue the numbering after the emitted
fingerprint and asset groups. -/
def find_correlated_alerts (alerts : List Alert) (time_window_minutes : ℚ) :
    CorrelationResult :=
  if alerts.isEmpty then ⟨0, [], false, 0, 0, 0⟩
  else
    let fpGs := fingerprintGroups alerts
    let assetGs := assetGroups alerts
    let clusterGs := clusterGroups alerts time_window_minutes
      (fpGs.length + assetGs.length)
    let correlation_groups := fpGs ++ assetGs ++ clusterGs
    { total_alerts := alerts.length
      correlation_groups := correlation_groups
      alert_storm_detected := correlation_groups.any
        (fun g => decide (5 < g.alert_count) && decide (g.type = "time_cluster"))
      unique_fingerprints := (fpKeys alerts).length
      unique_assets := (assetKeys alerts).length
      time_clusters := (timeClusters alerts time_window_minutes).length }

/-! ### A structural reformulation of the time-cluster sweep

`clusterSweep` transcribes the Python loop literally (a fold over the
sorted alerts).  For reasoning, `runs` below computes the same clusters
as maximal ≤-window-chained segments by plain recursion;
`clusterSweep_eq_runs` (proved later) connects the two. -/

/-- The longest prefix of `l` chainable from an element at time `prev`
with consecutive gaps at most `w`, together with the remainder. -/
def spanRun (w : ℚ) : ℚ → List Alert → List Alert × List Alert
  | _, [] => ([], [])
  | prev, b :: bs =>
    if b.createdAt - prev ≤ w then
      let p := spanRun w b.createdAt bs
      (b :: p.1, p.2)
    else ([], b :: bs)

/-- The time of the last element of the run chained from `prev` through
the given time profile (or `prev` itself when nothing chains). -/
def runEndQ (w : ℚ) : ℚ → List ℚ → ℚ
  | prev, [] => prev
  | prev, b :: bs => if b - prev ≤ w then runEndQ w b bs else prev

/-- Fuelled splitting of a list into maximal chained runs (the fuel only
serves structural recursion; `runs` supplies `l.length`, which always
suffices). -/
def runsFuel (w : ℚ) : Nat → List Alert → List (List Alert)
  | _, [] => []
  | 0, a :: _ => [[a]]
  | fuel + 1, a :: rest =>
    let p := spanRun w a.createdAt rest
    (a :: p.1) :: runsFuel w fuel p.2

/-- All maximal chained runs of a list (singletons included). -/
def runs (w : ℚ) (l : List Alert) : List (List Alert) := runsFuel w l.length l

/-- The order-insensitive content of a correlation group: its type, key,
member count, score, and member-id set. -/
def groupSummary (g : CorrelationGroup) : String × GroupKey × Nat × ℚ × Finset Nat :=
  (g.type, g.key, g.alert_count, g.correlation_score, g.alert_ids.toFinset)

/-- The order-insensitive content of a whole correlation result: all
reported counts, the storm flag, and the multiset of group summaries. -/
def resultSummary (r : CorrelationResult) :
    Nat × Multiset (String × GroupKey × Nat × ℚ × Finset Nat) × Bool × Nat × Nat × Nat :=
  (r.total_alerts, (↑(r.correlation_groups.map groupSummary) : Multiset _),
   r.alert_storm_detected, r.unique_fingerprints, r.unique_assets, r.time_clusters)

/-- Python's `round(x, 2)` (round half to even at two decimals). -/
def pyRound2 (q : ℚ) : ℚ :=
  let x := q * 100
  let f := ⌊x⌋
  let r := x - f
  let n : Int :=
    if r < 1 / 2 then f
    else if 1 / 2 < r then f + 1
    else if f % 2 = 0 then f else f + 1
  (n : ℚ) / 100

/-- One suppression suggestion dict. -/
structure SuppressionSuggestion where
  group_type : String
  keep_alert_id : Nat
  suppress_alert_ids : List Nat
  reason : String
  alerts_to_suppress : Nat
  deriving DecidableEq, Repr

/-- The result dict of `suggest_suppression`. -/
structure SuppressionResult where
  suppression_suggestions : List SuppressionSuggestion
  total_alerts : Nat
  suppressible_alerts : Nat
  noise_reduction_percent : ℚ
  deriving DecidableEq, Repr

/-- `AlertCorrelator.suggest_suppression(alerts, correlation_result)`: for
each group with more than two members and score strictly above 0.7, keep
`alert_ids[0]` and suggest suppressing `alert_ids[1:]`.  (On a malformed
group with an empty `alert_ids`, Python's `alert_ids[0]` would raise; the
embedding's `headD 0` is only relied on under the invariant
`alert_count = alert_ids.length`, which all groups produced by
`find_correlated_alerts` satisfy.) -/
def suggest_suppression (alerts : List Alert) (cr : CorrelationResult) :
    SuppressionResult :=
  let suggestions := cr.correlation_groups.foldl
    (fun acc g =>
      if 2 < g.alert_count ∧ 7 / 10 < g.correlation_score then
        acc ++ [{ group_type := g.type
                  keep_alert_id := g.alert_ids.headD 0
                  suppress_alert_ids := g.alert_ids.tail
                  reason := "High correlation (" ++ toString g.correlation_score ++
                    ") - " ++ g.reason
                  alerts_to_suppress := g.alert_ids.length - 1 }]
      else acc) []
  let total_suppressible := (suggestions.map (fun s => s.alerts_to_suppress)).sum
  { suppression_suggestions := suggestions
    total_alerts := alerts.length
    suppressible_alerts := total_suppressible
    noise_reduction_percent :=
      if alerts.isEmpty then 0
      else pyRound2 ((total_suppressible : ℚ) / alerts.length * 100) }

end AlertCorrelator

/-! # Helper lemmas -/

lemma dedup_length_le_one {α} [DecidableEq α] (l : List α)
    (h : ∀ a ∈ l, ∀ b ∈ l, a = b) : l.dedup.length ≤ 1 := by
  cases hd : l.dedup with
  | nil => simp
  | cons x t =>
    cases t with
    | nil => simp
    | cons y u =>
      exfalso
      have hnd := l.nodup_dedup
      rw [hd] at hnd
      have hxy : x ≠ y := by
        intro hxyeq
        exact (List.nodup_cons.mp hnd).1 (hxyeq ▸ List.mem_cons_self y u)
      have hx : x ∈ l := List.mem_dedup.mp (hd ▸ List.mem_cons_self x (y :: u))
      have hy : y ∈ l := List.mem_dedup.mp (hd ▸ List.mem_cons_of_mem x (List.mem_cons_self y u))
      exact hxy (h x hx y hy)

lemma one_lt_dedup_length {α} [DecidableEq α] {l : List α} {a b : α}
    (ha : a ∈ l) (hb : b ∈ l) (hab : a ≠ b) : 1 < l.dedup.length := by
  by_contra hle
  push_neg at hle
  have ha' : a ∈ l.dedup := List.mem_dedup.mpr ha
  have hb' : b ∈ l.dedup := List.mem_dedup.mpr hb
  cases hd : l.dedup with
  | nil => rw [hd] at ha'; exact absurd ha' (List.not_mem_nil a)
  | cons x t =>
    cases t with
    | nil =>
      rw [hd] at ha' hb'
      simp at ha' hb'
      exact hab (ha'.trans hb'.symm)
    | cons y u => rw [hd] at hle; simp at hle

/-! # Claim C8: business impact -/

/-- C8 counterexample: for a warning event on a tier-2 asset with one
related event, the formula value `min(30·1.5·1.1, 100)` is `49.5`, but the
returned `business_impact_score` is the `int()`-truncated `49`.  So the
claim's "returns impact = min(baseScore·tierMultiplier·(1 +
0.1·relatedEventsCount), 100)" is false as stated. -/
theorem business_impact_truncation_cex :
    ((SrcModels.calculate_business_impact ⟨"warning"⟩ 2 1).business_impact_score : ℚ) ≠
      min ((30 : ℚ) * (3 / 2) * (1 + 1 * (1 / 10))) 100 ∧
    (SrcModels.calculate_business_impact ⟨"warning"⟩ 2 1).business_impact_score = 49 ∧
    min ((30 : ℚ) * (3 / 2) * (1 + 1 * (1 / 10))) 100 = 99 / 2 := by
  have h49 : (SrcModels.calculate_business_impact ⟨"warning"⟩ 2 1).business_impact_score = 49 := by
    unfold SrcModels.calculate_business_impact
    norm_num [SrcModels.severityScore, SrcModels.tierMultiplier]
    rw [if_neg (by decide)]
    rw [min_eq_left (by norm_num)]
    rw [show ((99 : ℚ) / 2) = 49 + 1 / 2 from by norm_num]
    rw [Int.floor_eq_iff]
    all_goals norm_num
  refine ⟨?_, h49, by norm_num [min_def]⟩
  intro h
  rw [h49] at h
  norm_num [min_def] at h

/-- C8 (amended): `calculate_business_impact` returns `business_impact_score
= ⌊min(baseScore·tierMultiplier·(1 + 0.1·relatedEventsCount), 100)⌋`
(truncated by Python's `int()`), with the base/tier tables as claimed; the
returned score and the untruncated impact both lie in `[0, 100]`;
`affected_users = ⌊impact·10⌋` and `revenue_at_risk = affected_users·100`
are computed from the untruncated impact, as is the high/medium/low
level. -/
theorem calculate_business_impact_spec (event : SrcModels.Event) (asset_tier : Int)
    (related_events_count : Nat) :
    (SrcModels.calculate_business_impact event asset_tier related_events_count).business_impact_score =
      ⌊min (SrcModels.severityScore event.severity * SrcModels.tierMultiplier asset_tier *
        (1 + (related_events_count : ℚ) * (1 / 10))) 100⌋ ∧
    0 ≤ (SrcModels.calculate_business_impact event asset_tier related_events_count).business_impact_score ∧
    (SrcModels.calculate_business_impact event asset_tier related_events_count).business_impact_score ≤ 100 ∧
    0 ≤ min (SrcModels.severityScore event.severity * SrcModels.tierMultiplier asset_tier *
        (1 + (related_events_count : ℚ) * (1 / 10))) 100 ∧
    min (SrcModels.severityScore event.severity * SrcModels.tierMultiplier asset_tier *
        (1 + (related_events_count : ℚ) * (1 / 10))) 100 ≤ 100 ∧
    (SrcModels.calculate_business_impact event asset_tier related_events_count).affected_users =
      ⌊min (SrcModels.severityScore event.severity * SrcModels.tierMultiplier asset_tier *
        (1 + (related_events_count : ℚ) * (1 / 10))) 100 * 10⌋ ∧
    (SrcModels.calculate_business_impact event asset_tier related_events_count).revenue_at_risk =
      ((SrcModels.calculate_business_impact event asset_tier related_events_count).affected_users : ℚ) * 100 ∧
    (SrcModels.calculate_business_impact event asset_tier related_events_count).impact_level =
      (if 70 < min (SrcModels.severityScore event.severity * SrcModels.tierMultiplier asset_tier *
          (1 + (related_events_count : ℚ) * (1 / 10))) 100 then "high"
       else if 40 < min (SrcModels.severityScore event.severity * SrcModels.tierMultiplier asset_tier *
          (1 + (related_events_count : ℚ) * (1 / 10))) 100 then "medium"
       else "low") ∧
    SrcModels.severityScore "critical" = 50 ∧ SrcModels.severityScore "warning" = 30 ∧
    SrcModels.severityScore "info" = 10 ∧
    SrcModels.tierMultiplier 1 = 2 ∧ SrcModels.tierMultiplier 2 = 3 / 2 ∧
    SrcModels.tierMultiplier 3 = 1 := by
  have hbase : (10 : ℚ) ≤ SrcModels.severityScore event.severity := by
    unfold SrcModels.severityScore; split_ifs <;> norm_num
  have htier : (1 : ℚ) ≤ SrcModels.tierMultiplier asset_tier := by
    unfold SrcModels.tierMultiplier; split_ifs <;> norm_num
  have hcorr : (1 : ℚ) ≤ 1 + (related_events_count : ℚ) * (1 / 10) := by
    have : (0 : ℚ) ≤ (related_events_count : ℚ) := Nat.cast_nonneg _
    nlinarith
  have hprod : (0 : ℚ) ≤ SrcModels.severityScore event.severity *
      SrcModels.tierMultiplier asset_tier * (1 + (related_events_count : ℚ) * (1 / 10)) :=
    mul_nonneg (mul_nonneg (le_trans (by norm_num) hbase) (le_trans (by norm_num) htier))
      (le_trans (by norm_num) hcorr)
  have h0 : (0 : ℚ) ≤ min (SrcModels.severityScore event.severity *
      SrcModels.tierMultiplier asset_tier * (1 + (related_events_count : ℚ) * (1 / 10))) 100 :=
    le_min hprod (by norm_num)
  have h100 : min (SrcModels.severityScore event.severity *
      SrcModels.tierMultiplier asset_tier * (1 + (related_events_count : ℚ) * (1 / 10))) 100 ≤ 100 :=
    min_le_right _ _
  refine ⟨rfl, Int.floor_nonneg.mpr h0, ?_, h0, h100, rfl, rfl, rfl,
    rfl, rfl, rfl, rfl, rfl, rfl⟩
  show ⌊min (SrcModels.severityScore event.severity * SrcModels.tierMultiplier asset_tier *
      (1 + (related_events_count : ℚ) * (1 / 10))) 100⌋ ≤ 100
  have h2 := Int.floor_le_floor (α := ℚ) h100
  have h3 : ⌊(100 : ℚ)⌋ = 100 := by norm_num
  exact le_trans h2 (le_of_eq h3)

/-! # Claim C2: minimum training samples -/

/-- C2 counterexample: the plain `src/models` trainer, given 9 samples,
does not fail with `InsufficientDataError` — or with any error at all: it
logs a warning and returns, handing back the detector unchanged with the
trained flag still down.  So the claim's "fails with
`InsufficientDataError`" is false for that listed trainer. -/
theorem plain_train_silent_noop_below_minimum :
    SrcModels.AnomalyDetector.train (fun _ _ => ⟨fun _ => 0, fun _ => 1⟩)
      (SrcModels.AnomalyDetector.init (1 / 10)) [1, 2, 3, 4, 5, 6, 7, 8, 9] =
      SrcModels.AnomalyDetector.init (1 / 10) ∧
    (SrcModels.AnomalyDetector.train (fun _ _ => ⟨fun _ => 0, fun _ => 1⟩)
      (SrcModels.AnomalyDetector.init (1 / 10))
      [1, 2, 3, 4, 5, 6, 7, 8, 9]).is_trained = false :=
  ⟨rfl, rfl⟩

/-- C2 (amended): below 10 samples the persistent trainer returns the
insufficient-data failure dict (the concrete signal the spec's taxonomy
names `InsufficientDataError`), while the plain `src/models` trainer
surfaces no error at all — it silently returns with the state untouched,
so the trained flag stays down; with at least 10 samples both fit the
forest and set the trained flag, the persistent one returning the
success dict. -/
theorem train_minimum_samples (fit : ℚ → List ℚ → FittedModel)
    (pd : SrcModels.PersistentAnomalyDetector) (sd : SrcModels.AnomalyDetector)
    (data : List ℚ) (auto_save : Bool) :
    (data.length < 10 →
      SrcModels.PersistentAnomalyDetector.train fit pd data auto_save =
        (pd, .failure "Need at least 10 data points") ∧
      SrcModels.AnomalyDetector.train fit sd data = sd) ∧
    (10 ≤ data.length →
      (SrcModels.PersistentAnomalyDetector.train fit pd data auto_save).1.is_trained = true ∧
      (SrcModels.PersistentAnomalyDetector.train fit pd data auto_save).2 =
        .success data.length (SrcModels.get_statistics data) auto_save ∧
      (SrcModels.AnomalyDetector.train fit sd data).is_trained = true) := by
  constructor
  · intro h
    constructor
    · unfold SrcModels.PersistentAnomalyDetector.train
      rw [if_pos h]
    · unfold SrcModels.AnomalyDetector.train
      rw [if_pos h]
  · intro h
    have h' : ¬ data.length < 10 := Nat.not_lt.mpr h
    refine ⟨?_, ?_, ?_⟩
    · unfold SrcModels.PersistentAnomalyDetector.train
      rw [if_neg h']
    · unfold SrcModels.PersistentAnomalyDetector.train
      rw [if_neg h']
    · unfold SrcModels.AnomalyDetector.train
      rw [if_neg h']

/-- Witness for C2 at concrete inputs: an empty batch fails, a 10-sample
batch trains. -/
theorem train_minimum_samples_witness :
    (SrcModels.PersistentAnomalyDetector.train (fun _ _ => ⟨fun _ => 0, fun _ => 1⟩)
        (SrcModels.PersistentAnomalyDetector.init "anomaly_detector" (1 / 10)) [] true =
      (SrcModels.PersistentAnomalyDetector.init "anomaly_detector" (1 / 10),
        .failure "Need at least 10 data points")) ∧
    (SrcModels.PersistentAnomalyDetector.train (fun _ _ => ⟨fun _ => 0, fun _ => 1⟩)
        (SrcModels.PersistentAnomalyDetector.init "anomaly_detector" (1 / 10))
        [1, 2, 3, 4, 5, 6, 7, 8, 9, 10] true).1.is_trained = true :=
  ⟨((train_minimum_samples (fun _ _ => ⟨fun _ => 0, fun _ => 1⟩)
      (SrcModels.PersistentAnomalyDetector.init "anomaly_detector" (1 / 10))
      (SrcModels.AnomalyDetector.init (1 / 10)) [] true).1 (by decide)).1,
   ((train_minimum_samples (fun _ _ => ⟨fun _ => 0, fun _ => 1⟩)
      (SrcModels.PersistentAnomalyDetector.init "anomaly_detector" (1 / 10))
      (SrcModels.AnomalyDetector.init (1 / 10))
      [1, 2, 3, 4, 5, 6, 7, 8, 9, 10] true).2 (by decide)).1⟩

/-! # Claim C3: untrained predict/detect -/

/-- C3 counterexample: the per-value `detect` of an untrained persistent
detector does not fail with `ModelNotTrainedError`; it returns a complete
default verdict (`is_anomaly = false`, `score = 0`, `confidence = 0`) whose
only trace of the untrained state is the `reason` string. -/
theorem untrained_detect_returns_default_verdict :
    SrcModels.PersistentAnomalyDetector.detect
      (SrcModels.PersistentAnomalyDetector.init "anomaly_detector" (1 / 10)) 5 =
      ⟨false, 0, 0, "Model not trained"⟩ := rfl

/-- C3 (amended): `predict` on an untrained app-service detector fails
with `ModelNotTrainedError`, but the per-value `detect` of an untrained
detector (persistent or plain) does not fail: it returns the default
non-anomalous verdict with reason `"Model not trained"`. -/
theorem untrained_predict_errors_detect_defaults
    (d : AppService.AnomalyDetector) (pd : SrcModels.PersistentAnomalyDetector)
    (sd : SrcModels.AnomalyDetector) (data : List (List ℚ)) (v v' : ℚ)
    (h1 : d.is_trained = false) (h2 : pd.is_trained = false)
    (h3 : sd.is_trained = false) :
    AppService.AnomalyDetector.predict d data = .error .modelNotTrained ∧
    SrcModels.PersistentAnomalyDetector.detect pd v = ⟨false, 0, 0, "Model not trained"⟩ ∧
    SrcModels.AnomalyDetector.detect sd v' = ⟨false, 0, 0, "Model not trained"⟩ := by
  refine ⟨?_, ?_, ?_⟩
  · unfold AppService.AnomalyDetector.predict
    rw [if_pos h1]
  · unfold SrcModels.PersistentAnomalyDetector.detect
    rw [if_pos h2]
  · unfold SrcModels.AnomalyDetector.detect
    rw [if_pos h3]

/-- Witness for C3's amended theorem at concrete untrained detectors. -/
theorem untrained_predict_errors_detect_defaults_witness :
    AppService.AnomalyDetector.predict ⟨false, 7 / 10, fun _ => 0⟩ [[1], [2]] =
      .error .modelNotTrained ∧
    SrcModels.PersistentAnomalyDetector.detect
      (SrcModels.PersistentAnomalyDetector.init "anomaly_detector" (1 / 10)) 7 =
      ⟨false, 0, 0, "Model not trained"⟩ ∧
    SrcModels.AnomalyDetector.detect (SrcModels.AnomalyDetector.init (1 / 10)) 8 =
      ⟨false, 0, 0, "Model not trained"⟩ :=
  untrained_predict_errors_detect_defaults ⟨false, 7 / 10, fun _ => 0⟩
    (SrcModels.PersistentAnomalyDetector.init "anomaly_detector" (1 / 10))
    (SrcModels.AnomalyDetector.init (1 / 10)) [[1], [2]] 7 8 rfl rfl rfl

/-! # Claim C4: multivariate train validation -/

/-- C4 counterexample: `train` has no "at least two metrics" check — a
mapping with a single metric of 10 values trains successfully instead of
failing with `InvalidMetricSetError`. -/
theorem single_metric_train_succeeds :
    (SrcModels.MultiMetricDetector.train (fun _ _ => ⟨fun _ => 0, fun _ => 1⟩)
      (SrcModels.MultiMetricDetector.init (1 / 10))
      [("cpu", [1, 2, 3, 4, 5, 6, 7, 8, 9, 10])]).2 =
      .success ["cpu"] 10
        [("cpu", SrcModels.get_statistics [1, 2, 3, 4, 5, 6, 7, 8, 9, 10])] ∧
    (SrcModels.MultiMetricDetector.train (fun _ _ => ⟨fun _ => 0, fun _ => 1⟩)
      (SrcModels.MultiMetricDetector.init (1 / 10))
      [("cpu", [1, 2, 3, 4, 5, 6, 7, 8, 9, 10])]).1.is_trained = true := by
  constructor <;> rfl

/-- C4 (amended): multivariate `train` fails on an empty mapping (the
`"No metrics data provided"` failure) and on metrics of unequal lengths
(the `"All metrics must have same number of data points"` failure, the
spec's `InvalidMetricSetError`); with equal lengths it fails below 10
common samples (the spec's `InsufficientDataError`) and succeeds from 10
on — including for a mapping with only one metric, which the code does
not reject. -/
theorem multi_train_validation (fit : ℚ → List (List ℚ) → MultiFittedModel)
    (d : SrcModels.MultiMetricDetector) (md : List (String × List ℚ)) :
    (md = [] →
      SrcModels.MultiMetricDetector.train fit d md =
        (d, .failure "No metrics data provided")) ∧
    ((∃ p ∈ md, ∃ q ∈ md, p.2.length ≠ q.2.length) →
      SrcModels.MultiMetricDetector.train fit d md =
        (d, .failure "All metrics must have same number of data points")) ∧
    (∀ n : Nat, (∀ p ∈ md, p.2.length = n) → md ≠ [] → n < 10 →
      SrcModels.MultiMetricDetector.train fit d md =
        (d, .failure "Need at least 10 data points per metric")) ∧
    (∀ n : Nat, (∀ p ∈ md, p.2.length = n) → md ≠ [] → 10 ≤ n →
      (SrcModels.MultiMetricDetector.train fit d md).1.is_trained = true ∧
      (SrcModels.MultiMetricDetector.train fit d md).2 =
        .success (md.map (fun p => p.1)) n
          (md.map (fun p => (p.1, SrcModels.get_statistics p.2)))) := by
  refine ⟨?_, ?_, ?_, ?_⟩
  · intro h
    subst h
    rfl
  · rintro ⟨p, hp, q, hq, hpq⟩
    match md, hp, hq with
    | (n₀, v₀) :: rest, hp, hq =>
      have hlt : 1 < (((n₀, v₀) :: rest).map (fun p => p.2.length)).dedup.length :=
        one_lt_dedup_length (List.mem_map_of_mem _ hp) (List.mem_map_of_mem _ hq) hpq
      unfold SrcModels.MultiMetricDetector.train
      dsimp only
      rw [if_pos hlt]
  · intro n hall hne hn
    match md, hne with
    | (n₀, v₀) :: rest, _ =>
      have hle : ¬ 1 < (((n₀, v₀) :: rest).map (fun p => p.2.length)).dedup.length := by
        apply Nat.not_lt.mpr
        apply dedup_length_le_one
        intro a ha b hb
        obtain ⟨pa, hpa, rfl⟩ := List.mem_map.mp ha
        obtain ⟨pb, hpb, rfl⟩ := List.mem_map.mp hb
        rw [hall pa hpa, hall pb hpb]
      have hv₀ : v₀.length = n := hall (n₀, v₀) (List.mem_cons_self _ _)
      unfold SrcModels.MultiMetricDetector.train
      dsimp only
      rw [if_neg hle, hv₀, if_pos hn]
  · intro n hall hne hn
    match md, hne with
    | (n₀, v₀) :: rest, _ =>
      have hle : ¬ 1 < (((n₀, v₀) :: rest).map (fun p => p.2.length)).dedup.length := by
        apply Nat.not_lt.mpr
        apply dedup_length_le_one
        intro a ha b hb
        obtain ⟨pa, hpa, rfl⟩ := List.mem_map.mp ha
        obtain ⟨pb, hpb, rfl⟩ := List.mem_map.mp hb
        rw [hall pa hpa, hall pb hpb]
      have hv₀ : v₀.length = n := hall (n₀, v₀) (List.mem_cons_self _ _)
      have hnot : ¬ v₀.length < 10 := by rw [hv₀]; exact Nat.not_lt.mpr hn
      constructor
      · unfold SrcModels.MultiMetricDetector.train
        dsimp only
        rw [if_neg hle, if_neg hnot]
      · unfold SrcModels.MultiMetricDetector.train
        dsimp only
        rw [if_neg hle, if_neg hnot, hv₀]

/-- Witness for C4's amended theorem: the spec's own scenario,
`{"cpu": 10 values, "mem": 9 values}`, fails with the length-mismatch
error; `{"cpu": 10, "mem": 10}` trains. -/
theorem multi_train_validation_witness :
    SrcModels.MultiMetricDetector.train (fun _ _ => ⟨fun _ => 0, fun _ => 1⟩)
      (SrcModels.MultiMetricDetector.init (1 / 10))
      [("cpu", [1, 2, 3, 4, 5, 6, 7, 8, 9, 10]), ("mem", [1, 2, 3, 4, 5, 6, 7, 8, 9])] =
      (SrcModels.MultiMetricDetector.init (1 / 10),
        .failure "All metrics must have same number of data points") ∧
    (SrcModels.MultiMetricDetector.train (fun _ _ => ⟨fun _ => 0, fun _ => 1⟩)
      (SrcModels.MultiMetricDetector.init (1 / 10))
      [("cpu", [1, 2, 3, 4, 5, 6, 7, 8, 9, 10]),
       ("mem", [2, 3, 4, 5, 6, 7, 8, 9, 10, 11])]).1.is_trained = true :=
  ⟨(multi_train_validation (fun _ _ => ⟨fun _ => 0, fun _ => 1⟩)
      (SrcModels.MultiMetricDetector.init (1 / 10)) _).2.1
      ⟨("cpu", [1, 2, 3, 4, 5, 6, 7, 8, 9, 10]), by simp,
       ("mem", [1, 2, 3, 4, 5, 6, 7, 8, 9]), by simp, by decide⟩,
   ((multi_train_validation (fun _ _ => ⟨fun _ => 0, fun _ => 1⟩)
      (SrcModels.MultiMetricDetector.init (1 / 10)) _).2.2.2 10
      (by decide) (by simp) (by norm_num)).1⟩

/-! # Claim C9: the IQR method -/

lemma getD_map_rat (f : ℚ → ℚ) (l : List ℚ) (i : Nat) (h : i < l.length) (d d' : ℚ) :
    (l.map f).getD i d' = f (l.getD i d) := by
  simp [List.getD, List.getElem?_map, List.getElem?_eq_getElem h]

/-- C9: `detect_outliers_iqr` flags exactly the points outside
`[Q1 - m*IQR, Q3 + m*IQR]` (with `Q1`/`Q3` the linearly-interpolated
25th/75th percentiles and `IQR = Q3 - Q1`); the multiplier is the caller's
to configure with signature default `1.5`; and the statistical scorer's
`"iqr"` dispatch (past its short-input floor) is exactly this function. -/
theorem iqr_flags_characterization (data : List ℚ) (m : ℚ) :
    (DataProcessor.detect_outliers_iqr data m).length = data.length ∧
    (∀ i, i < data.length →
      ((DataProcessor.detect_outliers_iqr data m).getD i false = true ↔
        (data.getD i 0 <
          npPercentile data 25 - m * (npPercentile data 75 - npPercentile data 25) ∨
         npPercentile data 75 + m * (npPercentile data 75 - npPercentile data 25) <
          data.getD i 0))) ∧
    DataProcessor.detect_outliers_iqr_default data =
      DataProcessor.detect_outliers_iqr data (3 / 2) ∧
    (¬ data.length < 3 →
      AppService.AnomalyDetector.detect_statistical_anomalies data "iqr" m =
        .ok (DataProcessor.detect_outliers_iqr data m)) := by
  refine ⟨by simp [DataProcessor.detect_outliers_iqr], ?_, rfl, ?_⟩
  · intro i hi
    unfold DataProcessor.detect_outliers_iqr
    dsimp only
    rw [show ∀ p : ℚ → Bool, (data.map p).getD i false = p (data.getD i 0) from
      fun p => by simp [List.getD, List.getElem?_map, List.getElem?_eq_getElem hi]]
    simp [Bool.or_eq_true, decide_eq_true_eq]
  · intro h3
    unfold AppService.AnomalyDetector.detect_statistical_anomalies
    rw [if_neg h3, if_neg (by decide), if_pos rfl]

/-- Witness for C9: `[1, 2, 3, 100]` with the default multiplier; the
point `100` at index 3 is outside the fence. -/
theorem iqr_flags_characterization_witness :
    ((DataProcessor.detect_outliers_iqr [(1 : ℚ), 2, 3, 100] (3 / 2)).getD 3 false = true ↔
      ([(1 : ℚ), 2, 3, 100].getD 3 0 <
        npPercentile [(1 : ℚ), 2, 3, 100] 25 -
          (3 / 2) * (npPercentile [(1 : ℚ), 2, 3, 100] 75 -
            npPercentile [(1 : ℚ), 2, 3, 100] 25) ∨
       npPercentile [(1 : ℚ), 2, 3, 100] 75 +
          (3 / 2) * (npPercentile [(1 : ℚ), 2, 3, 100] 75 -
            npPercentile [(1 : ℚ), 2, 3, 100] 25) <
        [(1 : ℚ), 2, 3, 100].getD 3 0)) ∧
    AppService.AnomalyDetector.detect_statistical_anomalies
      [(1 : ℚ), 2, 3, 100] "iqr" (3 / 2) =
      .ok (DataProcessor.detect_outliers_iqr [(1 : ℚ), 2, 3, 100] (3 / 2)) :=
  ⟨(iqr_flags_characterization [(1 : ℚ), 2, 3, 100] (3 / 2)).2.1 3 (by decide),
   (iqr_flags_characterization [(1 : ℚ), 2, 3, 100] (3 / 2)).2.2.2 (by decide)⟩

/-! # Claim C1: predict normalization -/

lemma foldl_min_le_init (a : ℚ) (xs : List ℚ) : xs.foldl min a ≤ a := by
  induction xs generalizing a with
  | nil => simp
  | cons y ys ih => exact (ih (min a y)).trans (min_le_left a y)

lemma foldl_min_le_mem {x : ℚ} (a : ℚ) {xs : List ℚ} (hx : x ∈ xs) :
    xs.foldl min a ≤ x := by
  induction xs generalizing a with
  | nil => cases hx
  | cons y ys ih =>
    rcases List.mem_cons.mp hx with rfl | h
    · exact (foldl_min_le_init (min a x) ys).trans (min_le_right a x)
    · exact ih (min a y) h

lemma init_le_foldl_max (a : ℚ) (xs : List ℚ) : a ≤ xs.foldl max a := by
  induction xs generalizing a with
  | nil => simp
  | cons y ys ih => exact (le_max_left a y).trans (ih (max a y))

lemma mem_le_foldl_max {x : ℚ} (a : ℚ) {xs : List ℚ} (hx : x ∈ xs) :
    x ≤ xs.foldl max a := by
  induction xs generalizing a with
  | nil => cases hx
  | cons y ys ih =>
    rcases List.mem_cons.mp hx with rfl | h
    · exact (le_max_right a x).trans (init_le_foldl_max (max a x) ys)
    · exact ih (max a y) h

lemma foldl_min_mem (a : ℚ) (xs : List ℚ) : xs.foldl min a ∈ a :: xs := by
  induction xs generalizing a with
  | nil => simp
  | cons y ys ih =>
    have h := ih (min a y)
    rcases List.mem_cons.mp h with h' | h'
    · rcases min_choice a y with hm | hm
      · simp only [List.foldl_cons]
        rw [h', hm]
        exact List.mem_cons_self _ _
      · simp only [List.foldl_cons]
        rw [h', hm]
        exact List.mem_cons_of_mem _ (List.mem_cons_self _ _)
    · exact List.mem_cons_of_mem _ (List.mem_cons_of_mem _ h')

lemma foldl_max_mem (a : ℚ) (xs : List ℚ) : xs.foldl max a ∈ a :: xs := by
  induction xs generalizing a with
  | nil => simp
  | cons y ys ih =>
    have h := ih (max a y)
    rcases List.mem_cons.mp h with h' | h'
    · rcases max_choice a y with hm | hm
      · simp only [List.foldl_cons]
        rw [h', hm]
        exact List.mem_cons_self _ _
      · simp only [List.foldl_cons]
        rw [h', hm]
        exact List.mem_cons_of_mem _ (List.mem_cons_self _ _)
    · exact List.mem_cons_of_mem _ (List.mem_cons_of_mem _ h')

lemma listMin_le_mem {x : ℚ} {l : List ℚ} (hx : x ∈ l) : AppService.listMin l ≤ x := by
  cases l with
  | nil => cases hx
  | cons y ys =>
    rcases List.mem_cons.mp hx with rfl | h
    · exact foldl_min_le_init x ys
    · exact foldl_min_le_mem y h

lemma mem_le_listMax {x : ℚ} {l : List ℚ} (hx : x ∈ l) : x ≤ AppService.listMax l := by
  cases l with
  | nil => cases hx
  | cons y ys =>
    rcases List.mem_cons.mp hx with rfl | h
    · exact init_le_foldl_max x ys
    · exact mem_le_foldl_max y h

lemma listMin_mem {l : List ℚ} (h : l ≠ []) : AppService.listMin l ∈ l := by
  cases l with
  | nil => exact absurd rfl h
  | cons y ys => exact foldl_min_mem y ys

lemma listMax_mem {l : List ℚ} (h : l ≠ []) : AppService.listMax l ∈ l := by
  cases l with
  | nil => exact absurd rfl h
  | cons y ys => exact foldl_max_mem y ys

/-- C1: on a trained detector and a non-empty batch, `predict` returns
normalized scores, one per sample, all in `[0,1]`; a batch of all-equal
raw scores normalizes to all zeros; when the raw scores are not all equal
the normalization is the inverted min-max map (the minimum raw score —
most anomalous — maps to 1, the maximum to 0, and the map is antitone in
the raw score); and the anomaly flags are exactly `score > threshold`. -/
theorem predict_minmax_normalization (d : AppService.AnomalyDetector)
    (data : List (List ℚ)) (ht : d.is_trained = true) (hne : data ≠ []) :
    ∃ scores flags, AppService.AnomalyDetector.predict d data = .ok (scores, flags) ∧
      scores.length = data.length ∧
      (∀ s ∈ scores, 0 ≤ s ∧ s ≤ 1) ∧
      ((∀ x ∈ data.map d.scoreFn, ∀ y ∈ data.map d.scoreFn, x = y) →
        ∀ s ∈ scores, s = 0) ∧
      (AppService.listMin (data.map d.scoreFn) ≠ AppService.listMax (data.map d.scoreFn) →
        ∀ i, i < data.length →
          (((data.map d.scoreFn).getD i 0 = AppService.listMin (data.map d.scoreFn) →
             scores.getD i 0 = 1) ∧
           ((data.map d.scoreFn).getD i 0 = AppService.listMax (data.map d.scoreFn) →
             scores.getD i 0 = 0) ∧
           (∀ j, j < data.length →
             (data.map d.scoreFn).getD i 0 ≤ (data.map d.scoreFn).getD j 0 →
             scores.getD j 0 ≤ scores.getD i 0))) ∧
      flags = scores.map (fun s => decide (d.threshold < s)) := by
  have hcond : ¬ (d.is_trained = false) := by rw [ht]; simp
  have hrawne : data.map d.scoreFn ≠ [] := by
    intro h
    exact hne (List.map_eq_nil.mp h)
  have hlenraw : (data.map d.scoreFn).length = data.length := List.length_map _ _
  have hmnmem : AppService.listMin (data.map d.scoreFn) ∈ data.map d.scoreFn :=
    listMin_mem hrawne
  have hmxmem : AppService.listMax (data.map d.scoreFn) ∈ data.map d.scoreFn :=
    listMax_mem hrawne
  unfold AppService.AnomalyDetector.predict
  rw [if_neg hcond]
  dsimp only
  by_cases hc : AppService.listMax (data.map d.scoreFn) -
      AppService.listMin (data.map d.scoreFn) = 0
  · rw [if_pos hc]
    refine ⟨_, _, rfl, by simp, ?_, ?_, ?_, rfl⟩
    · intro s hs
      rcases List.mem_map.mp hs with ⟨r, _, rfl⟩
      norm_num
    · intro _ s hs
      rcases List.mem_map.mp hs with ⟨r, _, rfl⟩
      rfl
    · intro hne'
      exact absurd (by linarith [sub_eq_zero.mp hc]) hne'
  · rw [if_neg hc]
    have hle : AppService.listMin (data.map d.scoreFn) ≤
        AppService.listMax (data.map d.scoreFn) := listMin_le_mem hmxmem
    have hlt : AppService.listMin (data.map d.scoreFn) <
        AppService.listMax (data.map d.scoreFn) :=
      lt_of_le_of_ne hle (fun h => hc (by rw [h]; ring))
    have hD : 0 < AppService.listMax (data.map d.scoreFn) -
        AppService.listMin (data.map d.scoreFn) := sub_pos.mpr hlt
    refine ⟨_, _, rfl, by simp, ?_, ?_, ?_, rfl⟩
    · intro s hs
      rcases List.mem_map.mp hs with ⟨r, hr, rfl⟩
      have h1 : AppService.listMin (data.map d.scoreFn) ≤ r := listMin_le_mem hr
      have h2 : r ≤ AppService.listMax (data.map d.scoreFn) := mem_le_listMax hr
      constructor
      · have : (r - AppService.listMin (data.map d.scoreFn)) /
            (AppService.listMax (data.map d.scoreFn) -
              AppService.listMin (data.map d.scoreFn)) ≤ 1 :=
          (div_le_one hD).mpr (by linarith)
        linarith
      · have : 0 ≤ (r - AppService.listMin (data.map d.scoreFn)) /
            (AppService.listMax (data.map d.scoreFn) -
              AppService.listMin (data.map d.scoreFn)) :=
          div_nonneg (by linarith) (le_of_lt hD)
        linarith
    · intro hconst _ _
      exact absurd (hconst _ hmnmem _ hmxmem) (fun h => hc (by rw [h]; ring))
    · intro _ i hi
      have hi' : i < (data.map d.scoreFn).length := by rw [hlenraw]; exact hi
      rw [getD_map_rat _ _ _ hi' 0 0]
      refine ⟨?_, ?_, ?_⟩
      · intro hmin
        rw [hmin]
        field_simp
      · intro hmax
        rw [hmax]
        rw [div_self (ne_of_gt hD)]
        ring
      · intro j hj hij
        have hj' : j < (data.map d.scoreFn).length := by rw [hlenraw]; exact hj
        rw [getD_map_rat _ _ _ hj' 0 0]
        have : ((data.map d.scoreFn).getD i 0 - AppService.listMin (data.map d.scoreFn)) /
              (AppService.listMax (data.map d.scoreFn) -
                AppService.listMin (data.map d.scoreFn)) ≤
            ((data.map d.scoreFn).getD j 0 - AppService.listMin (data.map d.scoreFn)) /
              (AppService.listMax (data.map d.scoreFn) -
                AppService.listMin (data.map d.scoreFn)) :=
          (div_le_div_right hD).mpr (by linarith)
        linarith

/-- Witness for C1 at a concrete trained detector and two-sample batch:
raw scores `[1, 2]` normalize to `[1, 0]` with flags `[true, false]` at
the default threshold 0.7. -/
theorem predict_minmax_normalization_witness :
    ∃ scores flags,
      AppService.AnomalyDetector.predict
        ⟨true, ANOMALY_THRESHOLD, fun l => l.headD 0⟩ [[1], [2]] =
        .ok (scores, flags) ∧
      scores.length = ([[(1 : ℚ)], [2]] : List (List ℚ)).length ∧
      (∀ s ∈ scores, 0 ≤ s ∧ s ≤ 1) ∧
      ((∀ x ∈ ([[(1 : ℚ)], [2]] : List (List ℚ)).map (fun l => l.headD 0),
        ∀ y ∈ ([[(1 : ℚ)], [2]] : List (List ℚ)).map (fun l => l.headD 0), x = y) →
        ∀ s ∈ scores, s = 0) ∧
      (AppService.listMin (([[(1 : ℚ)], [2]] : List (List ℚ)).map (fun l => l.headD 0)) ≠
        AppService.listMax (([[(1 : ℚ)], [2]] : List (List ℚ)).map (fun l => l.headD 0)) →
        ∀ i, i < ([[(1 : ℚ)], [2]] : List (List ℚ)).length →
          ((([[(1 : ℚ)], [2]] : List (List ℚ)).map (fun l => l.headD 0)).getD i 0 =
              AppService.listMin (([[(1 : ℚ)], [2]] : List (List ℚ)).map (fun l => l.headD 0)) →
             scores.getD i 0 = 1) ∧
           ((([[(1 : ℚ)], [2]] : List (List ℚ)).map (fun l => l.headD 0)).getD i 0 =
              AppService.listMax (([[(1 : ℚ)], [2]] : List (List ℚ)).map (fun l => l.headD 0)) →
             scores.getD i 0 = 0) ∧
           (∀ j, j < ([[(1 : ℚ)], [2]] : List (List ℚ)).length →
             (([[(1 : ℚ)], [2]] : List (List ℚ)).map (fun l => l.headD 0)).getD i 0 ≤
              (([[(1 : ℚ)], [2]] : List (List ℚ)).map (fun l => l.headD 0)).getD j 0 →
             scores.getD j 0 ≤ scores.getD i 0)) ∧
      flags = scores.map (fun s => decide ((⟨true, ANOMALY_THRESHOLD, fun l => l.headD 0⟩ :
        AppService.AnomalyDetector).threshold < s)) :=
  predict_minmax_normalization ⟨true, ANOMALY_THRESHOLD, fun l => l.headD 0⟩
    [[1], [2]] rfl (by simp)

/-! # Claim C5: zero-dispersion inputs -/

/-- C5: the z-score path returns all-false without failing whenever the
standard deviation is zero (expressed through the variance, its square),
and the modified-z-score path does the same whenever the MAD is zero;
inputs shorter than 3 return all-false through the early floor in both
cases. -/
theorem zero_dispersion_no_anomalies (data : List ℚ) (threshold : ℚ) :
    (npVar data = 0 →
      AppService.AnomalyDetector.detect_statistical_anomalies data "zscore" threshold =
        .ok (List.replicate data.length false)) ∧
    (npMedian (data.map (fun x => |x - npMedian data|)) = 0 →
      AppService.AnomalyDetector.detect_statistical_anomalies data "mad" threshold =
        .ok (List.replicate data.length false)) := by
  constructor
  · intro h
    unfold AppService.AnomalyDetector.detect_statistical_anomalies
    by_cases hl : data.length < 3
    · rw [if_pos hl]
    · rw [if_neg hl, if_pos rfl]
      dsimp only
      rw [if_pos h]
  · intro h
    unfold AppService.AnomalyDetector.detect_statistical_anomalies
    by_cases hl : data.length < 3
    · rw [if_pos hl]
    · rw [if_neg hl, if_neg (by decide), if_neg (by decide), if_pos rfl]
      dsimp only
      rw [if_pos h]

lemma getD_replicate {a d : ℚ} {n i : Nat} (h : i < n) :
    (List.replicate n a).getD i d = a := by
  simp [List.getD, List.getElem?_replicate, h]

lemma insertionSort_replicate (n : Nat) (a : ℚ) :
    List.insertionSort (· ≤ ·) (List.replicate n a) = List.replicate n a := by
  have hp := List.perm_insertionSort (fun x y : ℚ => x ≤ y) (List.replicate n a)
  rw [List.eq_replicate_iff]
  exact ⟨by simpa using hp.length_eq, fun b hb => List.eq_of_mem_replicate (hp.subset hb)⟩

lemma npMedian_replicate {n : Nat} (hn : 0 < n) (a : ℚ) :
    npMedian (List.replicate n a) = a := by
  unfold npMedian
  dsimp only
  rw [insertionSort_replicate, List.length_replicate]
  by_cases hpar : n % 2 = 1
  · rw [if_pos hpar, getD_replicate (Nat.div_lt_self hn (by norm_num))]
  · rw [if_neg hpar,
      getD_replicate (lt_of_le_of_lt (Nat.sub_le _ _) (Nat.div_lt_self hn (by norm_num))),
      getD_replicate (Nat.div_lt_self hn (by norm_num))]
    ring

/-- Witness for C5: the spec's scenario, twenty copies of 50, through both
degenerate statistics. -/
theorem zero_dispersion_no_anomalies_witness :
    AppService.AnomalyDetector.detect_statistical_anomalies
      (List.replicate 20 (50 : ℚ)) "zscore" 3 =
      .ok (List.replicate (List.replicate 20 (50 : ℚ)).length false) ∧
    AppService.AnomalyDetector.detect_statistical_anomalies
      (List.replicate 20 (50 : ℚ)) "mad" 3 =
      .ok (List.replicate (List.replicate 20 (50 : ℚ)).length false) := by
  have hvar : npVar (List.replicate 20 (50 : ℚ)) = 0 := by
    unfold npVar npMean
    simp [List.map_replicate, List.sum_replicate, nsmul_eq_mul]
    norm_num
  have hmedian : npMedian (List.replicate 20 (50 : ℚ)) = 50 :=
    npMedian_replicate (by norm_num) 50
  have hmad : npMedian ((List.replicate 20 (50 : ℚ)).map
      (fun x => |x - npMedian (List.replicate 20 (50 : ℚ))|)) = 0 := by
    rw [hmedian, List.map_replicate]
    rw [show |(50 : ℚ) - 50| = 0 from by norm_num]
    exact npMedian_replicate (by norm_num) 0
  exact ⟨(zero_dispersion_no_anomalies _ 3).1 hvar,
         (zero_dispersion_no_anomalies _ 3).2 hmad⟩

/-! # Claim C6: suppression suggestions -/

lemma foldl_append_filter_map {α β} (P : α → Prop) [DecidablePred P] (f : α → β) :
    ∀ (l : List α) (init : List β),
      l.foldl (fun acc x => if P x then acc ++ [f x] else acc) init =
        init ++ (l.filter (fun x => decide (P x))).map f := by
  intro l
  induction l with
  | nil => simp
  | cons y ys ih =>
    intro init
    by_cases h : P y
    · simp only [List.foldl_cons, if_pos h]
      rw [ih]
      simp [List.filter_cons, h]
    · simp only [List.foldl_cons, if_neg h]
      rw [ih]
      simp [List.filter_cons, h]

/-- C6: `suggest_suppression` emits one suggestion per group with more
than two members and score strictly above 0.7 (in group order), keeping
the head of the group's member list and suppressing exactly the tail, so
the kept member is never among the suppressed ones and one fewer than the
member count is suppressed; and in a `find_correlated_alerts` result every
group that can pass the score filter lists its members as an
order-preserving sublist of the input alerts (i.e. in original alert
order), so the kept member is the group's first by original order.  The
hypothesis is the invariant `alert_count = |alert_ids|` (with distinct
ids), which `find_correlated_alerts` guarantees. -/
theorem suggest_suppression_spec (alerts : List AlertCorrelator.Alert)
    (cr : AlertCorrelator.CorrelationResult) (w : ℚ)
    (hw : ∀ g ∈ cr.correlation_groups,
      g.alert_count = g.alert_ids.length ∧ g.alert_ids.Nodup) :
    (AlertCorrelator.suggest_suppression alerts cr).suppression_suggestions =
      (cr.correlation_groups.filter
        (fun g => decide (2 < g.alert_count ∧ (7 : ℚ) / 10 < g.correlation_score))).map
        (fun g =>
          { group_type := g.type
            keep_alert_id := g.alert_ids.headD 0
            suppress_alert_ids := g.alert_ids.tail
            reason := "High correlation (" ++ toString g.correlation_score ++
              ") - " ++ g.reason
            alerts_to_suppress := g.alert_ids.length - 1 }) ∧
    (∀ s ∈ (AlertCorrelator.suggest_suppression alerts cr).suppression_suggestions,
      ∃ g ∈ cr.correlation_groups,
        2 < g.alert_count ∧ (7 : ℚ) / 10 < g.correlation_score ∧
        g.alert_ids ≠ [] ∧
        s.keep_alert_id = g.alert_ids.headD 0 ∧
        s.suppress_alert_ids = g.alert_ids.tail ∧
        s.keep_alert_id ∉ s.suppress_alert_ids ∧
        s.suppress_alert_ids.length + 1 = g.alert_count) ∧
    (∀ g ∈ (AlertCorrelator.find_correlated_alerts alerts w).correlation_groups,
      (7 : ℚ) / 10 < g.correlation_score →
        g.alert_ids.Sublist (alerts.map AlertCorrelator.Alert.id)) := by
  have hpart1 : (AlertCorrelator.suggest_suppression alerts cr).suppression_suggestions =
      (cr.correlation_groups.filter
        (fun g => decide (2 < g.alert_count ∧ (7 : ℚ) / 10 < g.correlation_score))).map
        (fun g =>
          { group_type := g.type
            keep_alert_id := g.alert_ids.headD 0
            suppress_alert_ids := g.alert_ids.tail
            reason := "High correlation (" ++ toString g.correlation_score ++
              ") - " ++ g.reason
            alerts_to_suppress := g.alert_ids.length - 1 }) := by
    unfold AlertCorrelator.suggest_suppression
    dsimp only
    rw [foldl_append_filter_map
      (fun g : AlertCorrelator.CorrelationGroup =>
        2 < g.alert_count ∧ (7 : ℚ) / 10 < g.correlation_score)]
    rw [List.nil_append]
  refine ⟨hpart1, ?_, ?_⟩
  · intro s hs
    rw [hpart1] at hs
    rcases List.mem_map.mp hs with ⟨g, hgf, rfl⟩
    rcases List.mem_filter.mp hgf with ⟨hg, hcondb⟩
    have hcond : 2 < g.alert_count ∧ (7 : ℚ) / 10 < g.correlation_score :=
      of_decide_eq_true hcondb
    obtain ⟨hlen, hnd⟩ := hw g hg
    have hne : g.alert_ids ≠ [] := by
      intro h
      rw [h] at hlen
      rw [hlen] at hcond
      exact absurd hcond.1 (by simp)
    refine ⟨g, hg, hcond.1, hcond.2, hne, rfl, rfl, ?_, ?_⟩
    · match g_ids : g.alert_ids, hne with
      | a :: t, _ =>
        rw [g_ids] at hnd
        simpa using (List.nodup_cons.mp hnd).1
    · match g_ids : g.alert_ids, hne with
      | a :: t, _ =>
        rw [g_ids] at hlen
        simp [hlen]
  · intro g hg hscore
    unfold AlertCorrelator.find_correlated_alerts at hg
    by_cases hempty : alerts.isEmpty
    · rw [if_pos hempty] at hg
      simp at hg
    · rw [if_neg hempty] at hg
      dsimp only at hg
      rcases List.mem_append.mp hg with h12 | h3
      · rcases List.mem_append.mp h12 with h1 | h2
        · unfold AlertCorrelator.fingerprintGroups at h1
          rcases List.mem_map.mp h1 with ⟨k, _, rfl⟩
          exact (List.filter_sublist alerts).map AlertCorrelator.Alert.id
        · unfold AlertCorrelator.assetGroups at h2
          rcases List.mem_map.mp h2 with ⟨k, _, rfl⟩
          exact absurd hscore (by norm_num)
      · unfold AlertCorrelator.clusterGroups at h3
        rcases List.mem_map.mp h3 with ⟨p, _, rfl⟩
        exact absurd hscore (by norm_num)

/-- Witness for C6: one fingerprint group with three distinct members. -/
theorem suggest_suppression_spec_witness :
    ((AlertCorrelator.suggest_suppression []
        ⟨3, [⟨"fingerprint", .fp "F1", 3, [1, 2, 3], 9 / 10, "r"⟩], false, 1, 0, 0⟩).suppression_suggestions =
      (([⟨"fingerprint", .fp "F1", 3, [1, 2, 3], 9 / 10, "r"⟩] :
          List AlertCorrelator.CorrelationGroup).filter
        (fun g => decide (2 < g.alert_count ∧ (7 : ℚ) / 10 < g.correlation_score))).map
        (fun g =>
          { group_type := g.type
            keep_alert_id := g.alert_ids.headD 0
            suppress_alert_ids := g.alert_ids.tail
            reason := "High correlation (" ++ toString g.correlation_score ++
              ") - " ++ g.reason
            alerts_to_suppress := g.alert_ids.length - 1 })) ∧
    (∀ s ∈ (AlertCorrelator.suggest_suppression []
        ⟨3, [⟨"fingerprint", .fp "F1", 3, [1, 2, 3], 9 / 10, "r"⟩], false, 1, 0, 0⟩).suppression_suggestions,
      ∃ g ∈ ([⟨"fingerprint", .fp "F1", 3, [1, 2, 3], 9 / 10, "r"⟩] :
          List AlertCorrelator.CorrelationGroup),
        2 < g.alert_count ∧ (7 : ℚ) / 10 < g.correlation_score ∧
        g.alert_ids ≠ [] ∧
        s.keep_alert_id = g.alert_ids.headD 0 ∧
        s.suppress_alert_ids = g.alert_ids.tail ∧
        s.keep_alert_id ∉ s.suppress_alert_ids ∧
        s.suppress_alert_ids.length + 1 = g.alert_count) ∧
    (∀ g ∈ (AlertCorrelator.find_correlated_alerts [] 30).correlation_groups,
      (7 : ℚ) / 10 < g.correlation_score →
        g.alert_ids.Sublist (([] : List AlertCorrelator.Alert).map AlertCorrelator.Alert.id)) :=
  suggest_suppression_spec []
    ⟨3, [⟨"fingerprint", .fp "F1", 3, [1, 2, 3], 9 / 10, "r"⟩], false, 1, 0, 0⟩ 30
    (by intro g hg
        rcases List.mem_singleton.mp hg with rfl
        exact ⟨rfl, by decide⟩)

/-! # Claim C10: the undocumented small-input floor -/

/-- C10: with fewer than 3 values, `detect_statistical_anomalies` returns
an all-false vector of the input's length for each of the three methods,
without failing (the early return fires before any method dispatch). -/
theorem statistical_short_input_all_false (data : List ℚ) (method : String)
    (threshold : ℚ) (hlen : data.length < 3)
    (hm : method = "zscore" ∨ method = "iqr" ∨ method = "mad") :
    AppService.AnomalyDetector.detect_statistical_anomalies data method threshold =
      .ok (List.replicate data.length false) := by
  unfold AppService.AnomalyDetector.detect_statistical_anomalies
  rw [if_pos hlen]

/-- Witness for C10 at a two-element input. -/
theorem statistical_short_input_all_false_witness :
    AppService.AnomalyDetector.detect_statistical_anomalies [(1 : ℚ), 2] "zscore" 3 =
      .ok (List.replicate ([(1 : ℚ), 2]).length false) :=
  statistical_short_input_all_false [1, 2] "zscore" 3 (by decide) (Or.inl rfl)


/-! # Claim C7: permutation invariance of correlation -/

namespace AlertCorrelator

lemma spanRun_append (w : ℚ) : ∀ (l : List Alert) (prev : ℚ),
    (spanRun w prev l).1 ++ (spanRun w prev l).2 = l := by
  intro l
  induction l with
  | nil => intro prev; rfl
  | cons b bs ih =>
    intro prev
    unfold spanRun
    by_cases h : b.createdAt - prev ≤ w
    · rw [if_pos h]
      dsimp only
      rw [List.cons_append, ih]
    · rw [if_neg h]
      rfl

lemma spanRun_rem_length (w : ℚ) : ∀ (l : List Alert) (prev : ℚ),
    (spanRun w prev l).2.length ≤ l.length := by
  intro l
  induction l with
  | nil => intro prev; exact Nat.le_refl _
  | cons b bs ih =>
    intro prev
    unfold spanRun
    by_cases h : b.createdAt - prev ≤ w
    · rw [if_pos h]
      dsimp only
      exact le_trans (ih b.createdAt) (Nat.le_succ _)
    · rw [if_neg h]

lemma runsFuel_congr (w : ℚ) : ∀ (f₁ : Nat) (l : List Alert) (f₂ : Nat),
    l.length ≤ f₁ → l.length ≤ f₂ → runsFuel w f₁ l = runsFuel w f₂ l := by
  intro f₁
  induction f₁ with
  | zero =>
    intro l f₂ h1 _
    cases l with
    | nil => cases f₂ <;> rfl
    | cons a rest => simp at h1
  | succ f ih =>
    intro l f₂ h1 h2
    cases l with
    | nil => cases f₂ <;> rfl
    | cons a rest =>
      cases f₂ with
      | zero => simp at h2
      | succ g =>
        unfold runsFuel
        dsimp only
        congr 1
        exact ih _ g
          (le_trans (spanRun_rem_length w rest a.createdAt) (Nat.succ_le_succ_iff.mp h1))
          (le_trans (spanRun_rem_length w rest a.createdAt) (Nat.succ_le_succ_iff.mp h2))

lemma runs_cons (w : ℚ) (a : Alert) (rest : List Alert) :
    runs w (a :: rest) =
      (a :: (spanRun w a.createdAt rest).1) :: runs w (spanRun w a.createdAt rest).2 := by
  have h0 : runs w (a :: rest) =
      (a :: (spanRun w a.createdAt rest).1) ::
        runsFuel w rest.length (spanRun w a.createdAt rest).2 := rfl
  rw [h0]
  congr 1
  show runsFuel w rest.length (spanRun w a.createdAt rest).2 =
    runsFuel w (spanRun w a.createdAt rest).2.length (spanRun w a.createdAt rest).2
  exact runsFuel_congr w rest.length _ _ (spanRun_rem_length w rest a.createdAt)
    (Nat.le_refl _)


lemma sweep_bridge (w : ℚ) : ∀ (rest : List Alert) (done : List (List Alert))
    (c : Alert) (cs : List Alert),
    (if 1 < (rest.foldl (sweepStep w) (done, c :: cs)).2.length then
      (rest.foldl (sweepStep w) (done, c :: cs)).1 ++
        [(rest.foldl (sweepStep w) (done, c :: cs)).2]
     else (rest.foldl (sweepStep w) (done, c :: cs)).1) =
    done ++ (((c :: cs) ++
        (spanRun w ((c :: cs).getLast (by simp)).createdAt rest).1) ::
      runs w (spanRun w ((c :: cs).getLast (by simp)).createdAt rest).2).filter
        (fun x => decide (1 < x.length)) := by
  intro rest
  induction rest with
  | nil =>
    intro done c cs
    simp only [List.foldl_nil]
    rw [show spanRun w ((c :: cs).getLast (by simp)).createdAt [] = ([], []) from rfl]
    rw [show runs w ([] : List Alert) = [] from rfl]
    rw [List.append_nil, List.filter_cons]
    by_cases h : 1 < (c :: cs).length
    · rw [if_pos h, if_pos (by simpa using h)]
      simp
    · rw [if_neg h, if_neg (by simpa using h)]
      simp
  | cons a rest ih =>
    intro done c cs
    rw [List.foldl_cons]
    by_cases hgap : a.createdAt - ((c :: cs).getLast (by simp)).createdAt ≤ w
    · rw [show sweepStep w (done, c :: cs) a = (done, (c :: cs) ++ [a]) from by
        unfold sweepStep
        dsimp only
        rw [if_pos hgap]]
      rw [show (c :: cs) ++ [a] = c :: (cs ++ [a]) from rfl]
      rw [ih done c (cs ++ [a])]
      have hlast : ((c :: (cs ++ [a])).getLast (by simp)) = a := by simp
      rw [hlast]
      rw [show spanRun w ((c :: cs).getLast (by simp)).createdAt (a :: rest) =
          (a :: (spanRun w a.createdAt rest).1, (spanRun w a.createdAt rest).2) from by
        simp only [spanRun]
        rw [if_pos hgap]]
      congr 2
      simp
    · by_cases hlen : 1 < (c :: cs).length
      · rw [show sweepStep w (done, c :: cs) a = (done ++ [c :: cs], [a]) from by
          unfold sweepStep
          dsimp only
          rw [if_neg hgap, if_pos hlen]]
        rw [ih (done ++ [c :: cs]) a []]
        have hlast : (([a] : List Alert).getLast (by simp)) = a := rfl
        rw [hlast]
        rw [show spanRun w ((c :: cs).getLast (by simp)).createdAt (a :: rest) =
            (([] : List Alert), a :: rest) from by
          simp only [spanRun]
          rw [if_neg hgap]]
        rw [List.append_nil, runs_cons w a rest]
        have hlen' : 0 < cs.length := by simpa using hlen
        simp [List.filter_cons, hlen', List.append_assoc]
      · rw [show sweepStep w (done, c :: cs) a = (done, [a]) from by
          unfold sweepStep
          dsimp only
          rw [if_neg hgap, if_neg hlen]]
        rw [ih done a []]
        have hlast : (([a] : List Alert).getLast (by simp)) = a := rfl
        rw [hlast]
        rw [show spanRun w ((c :: cs).getLast (by simp)).createdAt (a :: rest) =
            (([] : List Alert), a :: rest) from by
          simp only [spanRun]
          rw [if_neg hgap]]
        rw [List.append_nil, runs_cons w a rest]
        have hlen' : cs = [] := by simpa using hlen
        subst hlen'
        simp [List.filter_cons]

lemma clusterSweep_eq_runs (w : ℚ) (l : List Alert) :
    clusterSweep w l = (runs w l).filter (fun x => decide (1 < x.length)) := by
  cases l with
  | nil => rfl
  | cons a rest =>
    unfold clusterSweep
    dsimp only
    rw [List.foldl_cons]
    rw [show sweepStep w ([], []) a = ([], [a]) from rfl]
    have hb := sweep_bridge w rest [] a []
    have hlast : (([a] : List Alert).getLast (by simp)) = a := rfl
    rw [hlast] at hb
    rw [hb, runs_cons w a rest]
    simp


lemma spanRun_split (w : ℚ) (hw : 0 ≤ w) :
    ∀ (l : List Alert) (prev : ℚ), l.Sorted byTime →
      (∀ x ∈ l, prev ≤ x.createdAt) →
      prev ≤ runEndQ w prev (l.map Alert.createdAt) ∧
      (spanRun w prev l).1 =
        l.filter (fun x => decide (x.createdAt ≤ runEndQ w prev (l.map Alert.createdAt))) ∧
      (spanRun w prev l).2 =
        l.filter (fun x => decide (¬ x.createdAt ≤ runEndQ w prev (l.map Alert.createdAt))) := by
  intro l
  induction l with
  | nil => intro prev _ _; exact ⟨le_refl _, rfl, rfl⟩
  | cons b bs ih =>
    intro prev hsort hprev
    have hsort' : bs.Sorted byTime := (List.sorted_cons.mp hsort).2
    have hble : ∀ x ∈ bs, b.createdAt ≤ x.createdAt :=
      fun x hx => (List.sorted_cons.mp hsort).1 x hx
    by_cases hgap : b.createdAt - prev ≤ w
    · have hprevb : prev ≤ b.createdAt := hprev b (List.mem_cons_self _ _)
      obtain ⟨hc, h1, h2⟩ := ih b.createdAt hsort' hble
      have hEnd : runEndQ w prev ((b :: bs).map Alert.createdAt) =
          runEndQ w b.createdAt (bs.map Alert.createdAt) := by
        simp only [List.map_cons, runEndQ]
        rw [if_pos hgap]
      refine ⟨?_, ?_, ?_⟩
      · rw [hEnd]
        exact le_trans hprevb hc
      · rw [show (spanRun w prev (b :: bs)).1 = b :: (spanRun w b.createdAt bs).1 from by
          simp only [spanRun]
          rw [if_pos hgap]]
        rw [hEnd, List.filter_cons, if_pos (by simpa using hc), h1]
      · rw [show (spanRun w prev (b :: bs)).2 = (spanRun w b.createdAt bs).2 from by
          simp only [spanRun]
          rw [if_pos hgap]]
        rw [hEnd, List.filter_cons, if_neg (by simpa using hc), h2]
    · have hEnd : runEndQ w prev ((b :: bs).map Alert.createdAt) = prev := by
        simp only [List.map_cons, runEndQ]
        rw [if_neg hgap]
      have hbgt : prev < b.createdAt := by
        by_contra hle
        push_neg at hle
        exact hgap (by linarith)
      have hall : ∀ x ∈ b :: bs, prev < x.createdAt := by
        intro x hx
        rcases List.mem_cons.mp hx with rfl | hx'
        · exact hbgt
        · exact lt_of_lt_of_le hbgt (hble x hx')
      refine ⟨?_, ?_, ?_⟩
      · rw [hEnd]
      · rw [show (spanRun w prev (b :: bs)).1 = [] from by
          simp only [spanRun]
          rw [if_neg hgap]]
        rw [hEnd]
        symm
        rw [List.filter_eq_nil_iff]
        intro x hx
        simpa using not_le.mpr (hall x hx)
      · rw [show (spanRun w prev (b :: bs)).2 = b :: bs from by
          simp only [spanRun]
          rw [if_neg hgap]]
        rw [hEnd]
        symm
        rw [List.filter_eq_self]
        intro x hx
        simpa using not_le.mpr (hall x hx)


lemma sorted_map_createdAt {s : List Alert} (h : s.Sorted byTime) :
    (s.map Alert.createdAt).Sorted (fun x y : ℚ => x ≤ y) :=
  List.Pairwise.map _ (fun _ _ hab => hab) h

lemma profile_eq {s₁ s₂ : List Alert} (hp : List.Perm s₁ s₂)
    (h₁ : s₁.Sorted byTime) (h₂ : s₂.Sorted byTime) :
    s₁.map Alert.createdAt = s₂.map Alert.createdAt :=
  List.eq_of_perm_of_sorted (hp.map _) (sorted_map_createdAt h₁) (sorted_map_createdAt h₂)

lemma runs_perm (w : ℚ) (hw : 0 ≤ w) :
    ∀ (n : Nat) (s₁ s₂ : List Alert), s₁.length ≤ n → List.Perm s₁ s₂ →
      s₁.Sorted byTime → s₂.Sorted byTime →
      List.Forall₂ List.Perm (runs w s₁) (runs w s₂) := by
  intro n
  induction n with
  | zero =>
    intro s₁ s₂ hlen hp _ _
    have h1 : s₁ = [] := List.length_eq_zero.mp (Nat.le_zero.mp hlen)
    subst h1
    have h2 : s₂ = [] := hp.symm.eq_nil
    subst h2
    exact List.Forall₂.nil
  | succ n ih =>
    intro s₁ s₂ hlen hp hs₁ hs₂
    cases s₁ with
    | nil =>
      have h2 : s₂ = [] := hp.symm.eq_nil
      subst h2
      exact List.Forall₂.nil
    | cons a₁ l₁ =>
      cases s₂ with
      | nil => exact absurd hp.length_eq (by simp)
      | cons a₂ l₂ =>
        have hmap := profile_eq hp hs₁ hs₂
        simp only [List.map_cons, List.cons.injEq] at hmap
        obtain ⟨hh, ht⟩ := hmap
        have hs₁t : l₁.Sorted byTime := (List.sorted_cons.mp hs₁).2
        have hs₂t : l₂.Sorted byTime := (List.sorted_cons.mp hs₂).2
        have hb₁ : ∀ x ∈ l₁, a₁.createdAt ≤ x.createdAt :=
          fun x hx => (List.sorted_cons.mp hs₁).1 x hx
        have hb₂ : ∀ x ∈ l₂, a₂.createdAt ≤ x.createdAt :=
          fun x hx => (List.sorted_cons.mp hs₂).1 x hx
        obtain ⟨hc₁, hr₁, hq₁⟩ := spanRun_split w hw l₁ a₁.createdAt hs₁t hb₁
        obtain ⟨hc₂, hr₂, hq₂⟩ := spanRun_split w hw l₂ a₂.createdAt hs₂t hb₂
        have hcc : runEndQ w a₂.createdAt (l₂.map Alert.createdAt) =
            runEndQ w a₁.createdAt (l₁.map Alert.createdAt) := by
          rw [hh, ht]
        rw [hcc] at hc₂ hr₂ hq₂
        have hf₁ : a₁ :: (spanRun w a₁.createdAt l₁).1 =
            (a₁ :: l₁).filter (fun x =>
              decide (x.createdAt ≤ runEndQ w a₁.createdAt (l₁.map Alert.createdAt))) := by
          rw [List.filter_cons, if_pos (by simpa using hc₁), hr₁]
        have hf₂ : a₂ :: (spanRun w a₂.createdAt l₂).1 =
            (a₂ :: l₂).filter (fun x =>
              decide (x.createdAt ≤ runEndQ w a₁.createdAt (l₁.map Alert.createdAt))) := by
          rw [List.filter_cons, if_pos (by simpa using hh ▸ hc₂), hr₂]
        have hg₁ : (spanRun w a₁.createdAt l₁).2 =
            (a₁ :: l₁).filter (fun x =>
              decide (¬ x.createdAt ≤ runEndQ w a₁.createdAt (l₁.map Alert.createdAt))) := by
          rw [List.filter_cons, if_neg (by simpa using hc₁), hq₁]
        have hg₂ : (spanRun w a₂.createdAt l₂).2 =
            (a₂ :: l₂).filter (fun x =>
              decide (¬ x.createdAt ≤ runEndQ w a₁.createdAt (l₁.map Alert.createdAt))) := by
          rw [List.filter_cons, if_neg (by simpa using hh ▸ hc₂), hq₂]
        rw [runs_cons, runs_cons]
        refine List.Forall₂.cons ?_ ?_
        · rw [hf₁, hf₂]
          exact hp.filter _
        · apply ih
          · rw [hq₁]
            exact le_trans (List.length_filter_le _ _) (Nat.succ_le_succ_iff.mp hlen)
          · rw [hg₁, hg₂]
            exact hp.filter _
          · rw [hq₁]
            exact List.Pairwise.sublist (List.filter_sublist _) hs₁t
          · rw [hq₂]
            exact List.Pairwise.sublist (List.filter_sublist _) hs₂t


lemma forall₂_perm_filter {L₁ L₂ : List (List Alert)}
    (h : List.Forall₂ List.Perm L₁ L₂) :
    List.Forall₂ List.Perm (L₁.filter (fun x => decide (1 < x.length)))
      (L₂.filter (fun x => decide (1 < x.length))) := by
  induction h with
  | nil => exact List.Forall₂.nil
  | @cons a b l₁ l₂ h₁ h₂ ih =>
    rw [List.filter_cons, List.filter_cons]
    by_cases hc : 1 < a.length
    · rw [if_pos (by simpa using hc), if_pos (by simpa [← h₁.length_eq] using hc)]
      exact List.Forall₂.cons h₁ ih
    · rw [if_neg (by simpa using hc), if_neg (by simpa [← h₁.length_eq] using hc)]
      exact ih

lemma clusterSweep_neg (w : ℚ) (hw : w < 0) :
    ∀ (s : List Alert), s.Sorted byTime → clusterSweep w s = [] := by
  intro s
  induction s with
  | nil => intro _; rfl
  | cons a l ih =>
    intro hs
    rw [clusterSweep_eq_runs, runs_cons]
    cases l with
    | nil =>
      rw [show spanRun w a.createdAt [] = ([], []) from rfl]
      rw [show runs w ([] : List Alert) = [] from rfl]
      rw [List.filter_cons, if_neg (by simp)]
      rfl
    | cons b bs =>
      have hab : a.createdAt ≤ b.createdAt :=
        (List.sorted_cons.mp hs).1 b (List.mem_cons_self _ _)
      have hgap : ¬ (b.createdAt - a.createdAt ≤ w) := by
        intro hle
        linarith
      rw [show spanRun w a.createdAt (b :: bs) = (([] : List Alert), b :: bs) from by
        simp only [spanRun]
        rw [if_neg hgap]]
      rw [List.filter_cons, if_neg (by simp)]
      rw [← clusterSweep_eq_runs]
      exact ih (List.sorted_cons.mp hs).2

lemma mem_insertionDedup_aux {α} [DecidableEq α] :
    ∀ (l acc : List α) (x : α),
      (x ∈ l.foldl (fun acc x => if x ∈ acc then acc else acc ++ [x]) acc) ↔
        (x ∈ acc ∨ x ∈ l) := by
  intro l
  induction l with
  | nil => intro acc x; simp
  | cons y ys ih =>
    intro acc x
    rw [List.foldl_cons, ih]
    by_cases hy : y ∈ acc
    · rw [if_pos hy]
      simp only [List.mem_cons]
      constructor
      · rintro (h | h)
        · exact Or.inl h
        · exact Or.inr (Or.inr h)
      · rintro (h | h | h)
        · exact Or.inl h
        · exact Or.inl (h ▸ hy)
        · exact Or.inr h
    · rw [if_neg hy]
      simp only [List.mem_append, List.mem_cons, List.mem_singleton]
      tauto

lemma nodup_insertionDedup_aux {α} [DecidableEq α] :
    ∀ (l acc : List α), acc.Nodup →
      (l.foldl (fun acc x => if x ∈ acc then acc else acc ++ [x]) acc).Nodup := by
  intro l
  induction l with
  | nil => intro acc h; exact h
  | cons y ys ih =>
    intro acc h
    rw [List.foldl_cons]
    by_cases hy : y ∈ acc
    · rw [if_pos hy]
      exact ih acc h
    · rw [if_neg hy]
      refine ih (acc ++ [y]) ?_
      simp [List.nodup_append, h, hy]

lemma mem_insertionDedup {α} [DecidableEq α] {l : List α} {x : α} :
    x ∈ insertionDedup l ↔ x ∈ l := by
  unfold insertionDedup
  rw [mem_insertionDedup_aux]
  simp

lemma nodup_insertionDedup {α} [DecidableEq α] (l : List α) :
    (insertionDedup l).Nodup :=
  nodup_insertionDedup_aux l [] List.nodup_nil

lemma insertionDedup_perm {α} [DecidableEq α] {l₁ l₂ : List α}
    (h : List.Perm l₁ l₂) :
    List.Perm (insertionDedup l₁) (insertionDedup l₂) := by
  apply List.perm_of_nodup_nodup_toFinset_eq (nodup_insertionDedup _)
    (nodup_insertionDedup _)
  ext a
  simp only [List.mem_toFinset, mem_insertionDedup]
  exact h.mem_iff

lemma timeClusters_perm {alerts alerts' : List Alert} (w : ℚ)
    (hp : List.Perm alerts alerts') :
    List.Forall₂ List.Perm (timeClusters alerts w) (timeClusters alerts' w) := by
  unfold timeClusters
  by_cases hw : 0 ≤ w
  · rw [clusterSweep_eq_runs, clusterSweep_eq_runs]
    apply forall₂_perm_filter
    apply runs_perm w hw (List.insertionSort byTime alerts).length _ _ (Nat.le_refl _)
    · exact ((List.perm_insertionSort byTime alerts).trans hp).trans
        (List.perm_insertionSort byTime alerts').symm
    · exact List.sorted_insertionSort byTime alerts
    · exact List.sorted_insertionSort byTime alerts'
  · rw [clusterSweep_neg w (by linarith) _ (List.sorted_insertionSort byTime alerts),
        clusterSweep_neg w (by linarith) _ (List.sorted_insertionSort byTime alerts')]
    exact List.Forall₂.nil


lemma keyGroups_summary_perm {κ : Type} (keys₁ keys₂ : List κ)
    (hk : List.Perm keys₁ keys₂) (mem₁ mem₂ : κ → List Alert)
    (hm : ∀ k, List.Perm (mem₁ k) (mem₂ k)) (mkKey : κ → GroupKey)
    (ty : String) (score : ℚ) (reason : String) :
    List.Perm
      ((keys₁.filter (fun k => decide (1 < (mem₁ k).length))).map (fun k =>
        groupSummary
          { type := ty, key := mkKey k, alert_count := (mem₁ k).length
            alert_ids := (mem₁ k).map Alert.id, correlation_score := score
            reason := reason }))
      ((keys₂.filter (fun k => decide (1 < (mem₂ k).length))).map (fun k =>
        groupSummary
          { type := ty, key := mkKey k, alert_count := (mem₂ k).length
            alert_ids := (mem₂ k).map Alert.id, correlation_score := score
            reason := reason })) := by
  have hpred : ∀ k ∈ keys₁,
      decide (1 < (mem₁ k).length) = decide (1 < (mem₂ k).length) :=
    fun k _ => by simp [(hm k).length_eq]
  rw [List.filter_congr hpred]
  have hfun : ∀ k ∈ keys₁.filter (fun k => decide (1 < (mem₂ k).length)),
      groupSummary
        { type := ty, key := mkKey k, alert_count := (mem₁ k).length
          alert_ids := (mem₁ k).map Alert.id, correlation_score := score
          reason := reason } =
      groupSummary
        { type := ty, key := mkKey k, alert_count := (mem₂ k).length
          alert_ids := (mem₂ k).map Alert.id, correlation_score := score
          reason := reason } :=
    fun k _ => by
      simp [groupSummary, (hm k).length_eq,
        List.toFinset_eq_of_perm _ _ ((hm k).map Alert.id)]
  rw [List.map_congr_left hfun]
  exact (hk.filter _).map _

lemma enumFrom_cluster_summary_eq (w : ℚ) (nB : Nat) :
    ∀ {L₁ L₂ : List (List Alert)}, List.Forall₂ List.Perm L₁ L₂ → ∀ (i : Nat),
      (L₁.enumFrom i).map (groupSummary ∘ fun p =>
        { type := "time_cluster", key := GroupKey.cluster (nB + p.1)
          alert_count := p.2.length, alert_ids := p.2.map Alert.id
          correlation_score := 6 / 10
          reason := "Alerts within " ++ toString w ++
            " minutes - possible cascading failure" }) =
      (L₂.enumFrom i).map (groupSummary ∘ fun p =>
        { type := "time_cluster", key := GroupKey.cluster (nB + p.1)
          alert_count := p.2.length, alert_ids := p.2.map Alert.id
          correlation_score := 6 / 10
          reason := "Alerts within " ++ toString w ++
            " minutes - possible cascading failure" }) := by
  intro L₁ L₂ h
  induction h with
  | nil => intro i; rfl
  | @cons a b l₁ l₂ h₁ h₂ ih =>
    intro i
    rw [List.enumFrom_cons, List.enumFrom_cons, List.map_cons, List.map_cons, ih (i + 1)]
    congr 1
    simp [groupSummary, Function.comp, h₁.length_eq,
      List.toFinset_eq_of_perm _ _ (h₁.map Alert.id)]

lemma perm_any_eq {α : Type} {l₁ l₂ : List α} (h : List.Perm l₁ l₂) (q : α → Bool) :
    l₁.any q = l₂.any q := by
  induction h with
  | nil => rfl
  | cons x _ ih => simp [List.any_cons, ih]
  | swap x y l =>
    simp only [List.any_cons]
    rw [← Bool.or_assoc, ← Bool.or_assoc, Bool.or_comm (q y) (q x)]
  | trans _ _ ih₁ ih₂ => rw [ih₁, ih₂]

lemma any_map_lambda {α β : Type} (f : α → β) (q : β → Bool) :
    ∀ (l : List α), (l.map f).any q = l.any (fun x => q (f x)) := by
  intro l
  induction l with
  | nil => rfl
  | cons a t ih => simp only [List.map_cons, List.any_cons, ih]

lemma any_congr_of_map_perm {α β : Type} (f : α → β) (q : β → Bool)
    {l₁ l₂ : List α} (h : List.Perm (l₁.map f) (l₂.map f)) :
    l₁.any (fun x => q (f x)) = l₂.any (fun x => q (f x)) := by
  rw [← any_map_lambda f q l₁, ← any_map_lambda f q l₂]
  exact perm_any_eq h q


/-- C7: `find_correlated_alerts` is permutation-invariant up to the
ordering of members inside each group: permuting the input alerts leaves
the total count, the multiset of group summaries (type, key, member
count, score, member-id set), the alert-storm flag, and the distinct
fingerprint/asset and time-cluster counts unchanged. -/
theorem find_correlations_perm_invariant (alerts alerts' : List Alert) (w : ℚ)
    (hp : List.Perm alerts alerts') :
    resultSummary (find_correlated_alerts alerts w) =
      resultSummary (find_correlated_alerts alerts' w) := by
  by_cases hemp : alerts.isEmpty
  · have h1 : alerts = [] := List.isEmpty_iff.mp hemp
    subst h1
    have h2 : alerts' = [] := hp.symm.eq_nil
    subst h2
    rfl
  · have hemp' : ¬ alerts'.isEmpty := by
      intro h
      have h2 : alerts' = [] := List.isEmpty_iff.mp h
      subst h2
      have h1 : alerts = [] := hp.eq_nil
      rw [h1] at hemp
      exact hemp rfl
    have hfpmem : ∀ k, List.Perm (fpMembers alerts k) (fpMembers alerts' k) :=
      fun _ => hp.filter _
    have hasmem : ∀ k, List.Perm (assetMembers alerts k) (assetMembers alerts' k) :=
      fun _ => hp.filter _
    have hfpkeys : List.Perm (fpKeys alerts) (fpKeys alerts') :=
      insertionDedup_perm (hp.filterMap _)
    have haskeys : List.Perm (assetKeys alerts) (assetKeys alerts') :=
      insertionDedup_perm (hp.filterMap _)
    have hfp : List.Perm ((fingerprintGroups alerts).map groupSummary)
        ((fingerprintGroups alerts').map groupSummary) := by
      unfold fingerprintGroups
      rw [List.map_map, List.map_map]
      exact keyGroups_summary_perm _ _ hfpkeys _ _ hfpmem GroupKey.fp "fingerprint"
        (9 / 10) "Same event fingerprint - likely same root cause"
    have has : List.Perm ((assetGroups alerts).map groupSummary)
        ((assetGroups alerts').map groupSummary) := by
      unfold assetGroups
      rw [List.map_map, List.map_map]
      exact keyGroups_summary_perm _ _ haskeys _ _ hasmem GroupKey.asset "asset"
        (7 / 10) "Same asset affected - related infrastructure issue"
    have hnfp : (fingerprintGroups alerts).length = (fingerprintGroups alerts').length := by
      have := hfp.length_eq
      simpa using this
    have hnas : (assetGroups alerts).length = (assetGroups alerts').length := by
      have := has.length_eq
      simpa using this
    have htc := timeClusters_perm w hp
    have hcl : (clusterGroups alerts w
          ((fingerprintGroups alerts).length + (assetGroups alerts).length)).map groupSummary =
        (clusterGroups alerts' w
          ((fingerprintGroups alerts').length + (assetGroups alerts').length)).map groupSummary := by
      rw [← hnfp, ← hnas]
      unfold clusterGroups
      rw [List.map_map, List.map_map]
      exact enumFrom_cluster_summary_eq w _ htc 0
    have hgroups : List.Perm
        ((fingerprintGroups alerts ++ assetGroups alerts ++ clusterGroups alerts w
          ((fingerprintGroups alerts).length + (assetGroups alerts).length)).map groupSummary)
        ((fingerprintGroups alerts' ++ assetGroups alerts' ++ clusterGroups alerts' w
          ((fingerprintGroups alerts').length + (assetGroups alerts').length)).map groupSummary) := by
      rw [List.map_append, List.map_append, List.map_append, List.map_append]
      exact (hfp.append has).append (List.Perm.of_eq hcl)
    unfold find_correlated_alerts
    rw [if_neg hemp, if_neg hemp']
    dsimp only
    unfold resultSummary
    dsimp only
    simp only [Prod.mk.injEq]
    refine ⟨hp.length_eq, ?_, ?_, ?_, ?_, ?_⟩
    · exact Multiset.coe_eq_coe.mpr hgroups
    · exact any_congr_of_map_perm groupSummary
        (fun s => decide (5 < s.2.2.1) && decide (s.1 = "time_cluster")) hgroups
    · exact hfpkeys.length_eq
    · exact haskeys.length_eq
    · exact htc.length_eq

end AlertCorrelator

/-- Witness for C7: two alerts sharing a fingerprint and an asset, in the
two possible input orders. -/
theorem find_correlations_perm_invariant_witness :
    List.Perm
      [(⟨1, some "F1", some 7, none, 0, "critical", 0⟩ : AlertCorrelator.Alert),
       ⟨2, some "F1", some 7, none, 10, "info", 0⟩]
      [(⟨2, some "F1", some 7, none, 10, "info", 0⟩ : AlertCorrelator.Alert),
       ⟨1, some "F1", some 7, none, 0, "critical", 0⟩] ∧
    AlertCorrelator.resultSummary (AlertCorrelator.find_correlated_alerts
      [⟨1, some "F1", some 7, none, 0, "critical", 0⟩,
       ⟨2, some "F1", some 7, none, 10, "info", 0⟩] 30) =
    AlertCorrelator.resultSummary (AlertCorrelator.find_correlated_alerts
      [⟨2, some "F1", some 7, none, 10, "info", 0⟩,
       ⟨1, some "F1", some 7, none, 0, "critical", 0⟩] 30) :=
  ⟨List.Perm.swap _ _ _,
   AlertCorrelator.find_correlations_perm_invariant _ _ 30 (List.Perm.swap _ _ _)⟩
